import Mathlib

/-!
# Verification of `repro.cpp`

A shallow embedding of the reproduction harness `src/repro.cpp`: the fixed test
data, the three layer-filter policy objects and the simulation loop of `main`,
run against an arbitrary physics engine.

Scalars are IEEE-754 binary32 values held as their 32-bit pattern; the
arithmetic the harness relies on (`+`, `-`, `*`, `>`, `sqrt`) is defined on the
bit patterns with round-to-nearest-even.
-/

namespace Repro

/-! ## binary32 scalars -/

/-- C++ `float`: an IEEE-754 binary32 value, held as its 32-bit pattern. The
operations below round to nearest, ties to even, and return the default quiet
NaN where the result is a NaN (hardware may set the sign bit or keep a
payload instead). -/
structure F32 where
  bits : Nat
deriving DecidableEq

/-- The function `cast` of the source: reinterpret a `uint32_t` as a `float`
(`std::memcpy` of the four bytes). -/
def cast (u : Nat) : F32 := ⟨u % 2 ^ 32⟩

namespace F32

/-- Sign bit (bit 31). -/
def sign (x : F32) : Bool := decide (x.bits / 2 ^ 31 % 2 = 1)

/-- Biased exponent field (bits 23..30). -/
def expo (x : F32) : Nat := x.bits / 2 ^ 23 % 256

/-- Fraction field (bits 0..22). -/
def frac (x : F32) : Nat := x.bits % 2 ^ 23

def isNaN (x : F32) : Bool := decide (x.expo = 255) && decide (x.frac ≠ 0)

def isInf (x : F32) : Bool := decide (x.expo = 255) && decide (x.frac = 0)

def isFinite (x : F32) : Bool := decide (x.expo < 255)

/-- Magnitude in units of `2^-149` (the smallest subnormal). For an infinity
the same formula gives `2^277`, above every finite magnitude. -/
def mag (x : F32) : Nat :=
  if x.expo = 0 then x.frac else (2 ^ 23 + x.frac) * 2 ^ (x.expo - 1)

def isZero (x : F32) : Bool := decide (x.mag = 0)

/-- The value as a signed multiple of `2^-149`. -/
def key (x : F32) : Int := if x.sign then -(x.mag : Int) else (x.mag : Int)

def signBit (neg : Bool) : Nat := if neg then 2 ^ 31 else 0

/-- The default quiet NaN. -/
def nan : F32 := ⟨0x7fc00000⟩

def inf (neg : Bool) : F32 := ⟨signBit neg + 0x7f800000⟩

def zero (neg : Bool) : F32 := ⟨signBit neg⟩

/-- Worker of `ilog2`; the first argument bounds the number of halvings. -/
def ilog2Aux : Nat → Nat → Nat
  | 0, _ => 0
  | fuel + 1, n => if 2 ≤ n then ilog2Aux fuel (n / 2) + 1 else 0

/-- Position of the leading one bit of `n` (floor of the binary logarithm),
`0` for `n = 0`. -/
def ilog2 (n : Nat) : Nat := ilog2Aux n n

/-- Drop the low `sh` bits of `n`, rounding to nearest, ties to even. -/
def roundHalfEven (n sh : Nat) : Nat :=
  let q := n / 2 ^ sh
  let r := n % 2 ^ sh
  if 2 * r > 2 ^ sh ∨ (2 * r = 2 ^ sh ∧ q % 2 = 1) then q + 1 else q

/-- Pack a sign with the exponent and fraction fields `b`; at or above the
exponent field 255 the value has overflowed to an infinity. -/
def pack (neg : Bool) (b : Nat) : F32 :=
  if b ≥ 255 * 2 ^ 23 then inf neg else ⟨signBit neg + b⟩

/-- Round the exact magnitude `n * 2^-s` to the nearest binary32 value, ties to
even, and pack it with the sign `neg`. `sh` is the number of low bits of `n`
that do not fit: all but the leading 24, and at least down to the subnormal
quantum `2^-149`. The rounded significand is added to the exponent field, so
that a carry out of the significand lands in the exponent. -/
def roundPack (neg : Bool) (n s : Nat) : F32 :=
  if n = 0 then zero neg else
  let sh := max (ilog2 n + 1 - 24) (s - 149)
  pack neg ((sh + 149 - s) * 2 ^ 23 + roundHalfEven n sh)

/-- Unary minus: flip the sign bit. -/
def neg (x : F32) : F32 :=
  ⟨if x.sign then x.bits % 2 ^ 32 - 2 ^ 31 else x.bits % 2 ^ 32 + 2 ^ 31⟩

/-- Binary32 addition, round to nearest even. -/
def add (x y : F32) : F32 :=
  if x.isNaN || y.isNaN then nan
  else if x.isInf then (if y.isInf && (x.sign != y.sign) then nan else x)
  else if y.isInf then y
  else
    let z : Int := x.key + y.key
    if z = 0 then zero (x.sign && y.sign)
    else roundPack (decide (z < 0)) z.natAbs 149

/-- Binary32 subtraction. -/
def sub (x y : F32) : F32 := add x (neg y)

/-- Binary32 multiplication, round to nearest even. -/
def mul (x y : F32) : F32 :=
  if x.isNaN || y.isNaN then nan
  else if (x.isInf && y.isZero) || (x.isZero && y.isInf) then nan
  else if x.isInf || y.isInf then inf (x.sign != y.sign)
  else roundPack (x.sign != y.sign) (x.mag * y.mag) 298

/-- Integer square root by bisection on the bits of the result, from bit `k - 1`
down: `r` is the root found so far. -/
def isqrtAux (n : Nat) : Nat → Nat → Nat
  | 0, r => r
  | k + 1, r =>
    let c := r + 2 ^ k
    isqrtAux n k (if c * c ≤ n then c else r)

/-- Floor of the square root of `n`. -/
def isqrt (n : Nat) : Nat := isqrtAux n (ilog2 n / 2 + 1) 0

/-- Binary32 square root, round to nearest even. The magnitude `m * 2^-149` is
`(m * 2^53) * 2^-202`, whose root is `isqrt (m * 2^53) * 2^-101`; one more bit
records whether the integer root is inexact, so that rounding sees it. -/
def sqrt (x : F32) : F32 :=
  if x.isNaN then nan
  else if x.isZero then x
  else if x.sign then nan
  else if x.isInf then x
  else
    let n := x.mag * 2 ^ 53
    let r := isqrt n
    roundPack false (2 * r + (if r * r = n then 0 else 1)) 102

/-- The comparison `x > y` of C++: false when either side is a NaN. -/
def gt (x y : F32) : Bool :=
  !x.isNaN && !y.isNaN && decide (y.key < x.key)

end F32

/-! ## Literals of the source -/

/-- The literal `0.0f`. -/
def lit_0_0f : F32 := ⟨0x00000000⟩

/-- The literal `5.0f`. -/
def lit_5_0f : F32 := ⟨0x40a00000⟩

/-- The literal `-14.0f`. -/
def lit_m14_0f : F32 := ⟨0xc1600000⟩

/-- The literal `0.3f`: the binary32 value nearest to 3/10. -/
def lit_0_3f : F32 := ⟨0x3e99999a⟩

/-- The literal `-9.81f`. -/
def lit_m9_81f : F32 := ⟨0xc11cf5c3⟩

/-! ## `JPH::Vec3` -/

/-- The engine's `JPH::Vec3`: three binary32 components. -/
structure Vec3 where
  x : F32
  y : F32
  z : F32
deriving DecidableEq

namespace Vec3

def GetX (v : Vec3) : F32 := v.x

def GetY (v : Vec3) : F32 := v.y

def GetZ (v : Vec3) : F32 := v.z

def SetZ (v : Vec3) (z : F32) : Vec3 := { v with z := z }

/-- Component-wise sum: `operator+` and `operator+=`. -/
def add (a b : Vec3) : Vec3 := ⟨F32.add a.x b.x, F32.add a.y b.y, F32.add a.z b.z⟩

/-- Component-wise difference: `operator-`. -/
def sub (a b : Vec3) : Vec3 := ⟨F32.sub a.x b.x, F32.sub a.y b.y, F32.sub a.z b.z⟩

/-- Vector times scalar: `operator*(float)`. -/
def mulScalar (a : Vec3) (f : F32) : Vec3 := ⟨F32.mul a.x f, F32.mul a.y f, F32.mul a.z f⟩

/-- Squared length, `x*x + y*y + z*z`. -/
def LengthSq (a : Vec3) : F32 :=
  F32.add (F32.add (F32.mul a.x a.x) (F32.mul a.y a.y)) (F32.mul a.z a.z)

/-- Euclidean length, `sqrt(LengthSq())`. -/
def Length (a : Vec3) : F32 := F32.sqrt a.LengthSq

end Vec3

/-! ## The test data and constants -/

def test_delta_time : F32 := cast 0x3c880fb9

def test_linear_velocity_xy : Vec3 := ⟨cast 0xc0a53844, cast 0x40439dba, lit_0_0f⟩

def test_physics_system_gravity : Vec3 := ⟨lit_0_0f, lit_0_0f, lit_m9_81f⟩

def test_character_position_initial : Vec3 :=
  ⟨cast 0x42162bdb, cast 0x4211bda0, cast 0x3fe66666⟩

/-- The three fields of `ExtendedUpdateSettings` the harness assigns; the
others keep the engine's defaults. -/
structure ExtendedUpdateSettings where
  mStickToFloorStepDown : Vec3
  mWalkStairsStepUp : Vec3
  mWalkStairsStepDownExtra : Vec3
deriving DecidableEq

def test_extended_update_settings : ExtendedUpdateSettings :=
  { mStickToFloorStepDown := ⟨lit_0_0f, lit_0_0f, lit_0_0f⟩
    mWalkStairsStepUp := ⟨lit_0_0f, lit_0_0f, lit_0_0f⟩
    mWalkStairsStepDownExtra := ⟨lit_0_0f, lit_0_0f, lit_0_0f⟩ }

/-! ## Layers and collision rules -/

/-- The type `JPH::ObjectLayer`, an unsigned integer. -/
abbrev ObjectLayer := Nat

/-- The type `JPH::BroadPhaseLayer`, a wrapped unsigned integer. -/
abbrev BroadPhaseLayer := Nat

/-- The helper `bp_value`: the integer a broad-phase layer wraps. -/
def bp_value (bp : BroadPhaseLayer) : Nat := bp

namespace ObjectLayerImpl

def kStatic : ObjectLayer := 0

def kDynamic : ObjectLayer := 1

def kCount : Nat := 2

end ObjectLayerImpl

namespace BroadPhaseLayerImpl

def kStatic : BroadPhaseLayer := 0

def kDynamic : BroadPhaseLayer := 1

def kCount : Nat := 2

end BroadPhaseLayerImpl

/-- What a function with a `JPH_ASSERT(false)` branch does: the value it
returns (also the value of a build without assertions), and whether the
asserting branch was taken. -/
structure Checked (α : Type) where
  value : α
  assertFailed : Bool
deriving DecidableEq

namespace ObjectLayerPairFilterImpl

def ShouldCollide (inLayer1 inLayer2 : ObjectLayer) : Checked Bool :=
  match inLayer1 with
  | 0 => ⟨decide (inLayer2 = ObjectLayerImpl.kDynamic), false⟩
  | 1 => ⟨true, false⟩
  | _ => ⟨false, true⟩

end ObjectLayerPairFilterImpl

namespace BroadPhaseLayerInterfaceImpl

def GetNumBroadPhaseLayers : Nat := BroadPhaseLayerImpl.kCount

def GetBroadPhaseLayer (inLayer : ObjectLayer) : Checked BroadPhaseLayer :=
  match inLayer with
  | 0 => ⟨BroadPhaseLayerImpl.kStatic, false⟩
  | 1 => ⟨BroadPhaseLayerImpl.kDynamic, false⟩
  | _ => ⟨BroadPhaseLayerImpl.kStatic, true⟩

end BroadPhaseLayerInterfaceImpl

namespace ObjectVsBroadPhaseLayerFilterImpl

def ShouldCollide (inLayer1 : ObjectLayer) (inLayer2 : BroadPhaseLayer) : Checked Bool :=
  match inLayer1 with
  | 0 => ⟨decide (inLayer2 = BroadPhaseLayerImpl.kDynamic), false⟩
  | 1 => ⟨true, false⟩
  | _ => ⟨false, true⟩

end ObjectVsBroadPhaseLayerFilterImpl

/-! ## The static scene meshes -/

/-- The engine's `JPH::Float3`: a vertex. -/
structure Float3 where
  x : F32
  y : F32
  z : F32
deriving DecidableEq

/-- The engine's `JPH::IndexedTriangle`: three vertex indices and a material
index. -/
structure IndexedTriangle where
  i0 : Nat
  i1 : Nat
  i2 : Nat
  mMaterialIndex : Nat
deriving DecidableEq

/-- The arguments of the `JPH::MeshShapeSettings` constructor: the vertex list
and the indexed triangle list. -/
structure MeshShapeSettings where
  list_vertex : List Float3
  list_indexed_triangle : List IndexedTriangle
deriving DecidableEq

/-- The constant `kIndexMaterial` of `test_vec_mesh_shape_settings`. -/
def kIndexMaterial : Nat := 0

/-- The first block of `test_vec_mesh_shape_settings`, "ground". -/
def mesh_ground : MeshShapeSettings :=
  { list_vertex := [
      Float3.mk (cast 0x42b40000) (cast 0xc2200000) (cast 0x0),
      Float3.mk (cast 0x42b40000) (cast 0x42200000) (cast 0x0),
      Float3.mk (cast 0xc1dccccc) (cast 0xc2200000) (cast 0x0),
      Float3.mk (cast 0xc1dccccc) (cast 0x42200000) (cast 0x0)],
    list_indexed_triangle := [
      IndexedTriangle.mk 0 1 3 kIndexMaterial,
      IndexedTriangle.mk 0 3 2 kIndexMaterial] }

/-- The second block of `test_vec_mesh_shape_settings`, "outer_corner_column.001". -/
def mesh_outer_corner_column : MeshShapeSettings :=
  { list_vertex := [
      Float3.mk (cast 0x420d83dd) (cast 0x4207f804) (cast 0xbd1fff7a),
      Float3.mk (cast 0x420d83dd) (cast 0x4207f804) (cast 0x419fb000),
      Float3.mk (cast 0x421135ea) (cast 0x42097fe2) (cast 0xbd1fff7a),
      Float3.mk (cast 0x421135ea) (cast 0x42097fe2) (cast 0x419fb000),
      Float3.mk (cast 0x421445a7) (cast 0x4210e3fc) (cast 0xbd1fff7a),
      Float3.mk (cast 0x421445a7) (cast 0x4210e3fc) (cast 0x419fb000),
      Float3.mk (cast 0x42061fc2) (cast 0x420b07c0) (cast 0xbd1fff7a),
      Float3.mk (cast 0x42061fc2) (cast 0x420b07c0) (cast 0x419fb000),
      Float3.mk (cast 0x4212bdc9) (cast 0x4214960a) (cast 0xbd1fff7a),
      Float3.mk (cast 0x4212bdc9) (cast 0x4214960a) (cast 0x419fb000),
      Float3.mk (cast 0x420497e4) (cast 0x420eb9ce) (cast 0xbd1fff7a),
      Float3.mk (cast 0x420497e4) (cast 0x420eb9ce) (cast 0x419fb000),
      Float3.mk (cast 0x42074589) (cast 0x42170ab7) (cast 0x4122510c),
      Float3.mk (cast 0x4209145b) (cast 0x4212ad5f) (cast 0x40ec62bd),
      Float3.mk (cast 0x420cc668) (cast 0x4214353d) (cast 0x40ec62bd),
      Float3.mk (cast 0x420af797) (cast 0x42189295) (cast 0x4122510b),
      Float3.mk (cast 0x4211be6c) (cast 0x41fb84fc) (cast 0x41513143),
      Float3.mk (cast 0x42135e71) (cast 0x41f3ac41) (cast 0x41244c68),
      Float3.mk (cast 0x4217107e) (cast 0x41f6bbfd) (cast 0x41244c68),
      Float3.mk (cast 0x42157079) (cast 0x41fe94b8) (cast 0x41513143),
      Float3.mk (cast 0x421c3b04) (cast 0x41c8e29e) (cast 0x41755e6c),
      Float3.mk (cast 0x421d7494) (cast 0x41c2f897) (cast 0x41471b97),
      Float3.mk (cast 0x422126a2) (cast 0x41c60853) (cast 0x41471b97),
      Float3.mk (cast 0x421fed11) (cast 0x41cbf25a) (cast 0x41755e6c),
      Float3.mk (cast 0x4226b60e) (cast 0x419647c2) (cast 0x418700f1),
      Float3.mk (cast 0x4227a078) (cast 0x4191dbe8) (cast 0x415ef8a5),
      Float3.mk (cast 0x422b5285) (cast 0x4194eba4) (cast 0x415ef8a5),
      Float3.mk (cast 0x422a681c) (cast 0x4199577e) (cast 0x418700f1),
      Float3.mk (cast 0x42312d64) (cast 0x41477d8a) (cast 0x4190f94e),
      Float3.mk (cast 0x42320032) (cast 0x413f89dc) (cast 0x4172b9c4),
      Float3.mk (cast 0x4235b23f) (cast 0x4145a956) (cast 0x4172b9c4),
      Float3.mk (cast 0x4234df72) (cast 0x414d9d04) (cast 0x4190f94e)],
    list_indexed_triangle := [
      IndexedTriangle.mk 2 3 1 kIndexMaterial,
      IndexedTriangle.mk 2 1 0 kIndexMaterial,
      IndexedTriangle.mk 3 2 4 kIndexMaterial,
      IndexedTriangle.mk 3 4 5 kIndexMaterial,
      IndexedTriangle.mk 0 1 7 kIndexMaterial,
      IndexedTriangle.mk 0 7 6 kIndexMaterial,
      IndexedTriangle.mk 6 7 11 kIndexMaterial,
      IndexedTriangle.mk 6 11 10 kIndexMaterial,
      IndexedTriangle.mk 5 4 8 kIndexMaterial,
      IndexedTriangle.mk 5 8 9 kIndexMaterial,
      IndexedTriangle.mk 13 17 16 kIndexMaterial,
      IndexedTriangle.mk 13 16 12 kIndexMaterial,
      IndexedTriangle.mk 14 18 17 kIndexMaterial,
      IndexedTriangle.mk 14 17 13 kIndexMaterial,
      IndexedTriangle.mk 15 19 18 kIndexMaterial,
      IndexedTriangle.mk 15 18 14 kIndexMaterial,
      IndexedTriangle.mk 17 21 20 kIndexMaterial,
      IndexedTriangle.mk 17 20 16 kIndexMaterial,
      IndexedTriangle.mk 18 22 21 kIndexMaterial,
      IndexedTriangle.mk 18 21 17 kIndexMaterial,
      IndexedTriangle.mk 19 23 22 kIndexMaterial,
      IndexedTriangle.mk 19 22 18 kIndexMaterial,
      IndexedTriangle.mk 21 25 24 kIndexMaterial,
      IndexedTriangle.mk 21 24 20 kIndexMaterial,
      IndexedTriangle.mk 22 26 25 kIndexMaterial,
      IndexedTriangle.mk 22 25 21 kIndexMaterial,
      IndexedTriangle.mk 23 27 26 kIndexMaterial,
      IndexedTriangle.mk 23 26 22 kIndexMaterial,
      IndexedTriangle.mk 25 29 28 kIndexMaterial,
      IndexedTriangle.mk 25 28 24 kIndexMaterial,
      IndexedTriangle.mk 26 30 29 kIndexMaterial,
      IndexedTriangle.mk 26 29 25 kIndexMaterial,
      IndexedTriangle.mk 27 31 30 kIndexMaterial,
      IndexedTriangle.mk 27 30 26 kIndexMaterial] }

/-- The third block of `test_vec_mesh_shape_settings`, "outer_wall_segment_joined". -/
def mesh_outer_wall_segment_joined : MeshShapeSettings :=
  { list_vertex := [
      Float3.mk (cast 0x426f9f80) (cast 0x42208550) (cast 0x40ccf10f),
      Float3.mk (cast 0x426f9f84) (cast 0x42118550) (cast 0x40ccf10d),
      Float3.mk (cast 0x42711ca6) (cast 0x42118550) (cast 0x40e1c719),
      Float3.mk (cast 0x42711ca1) (cast 0x42208550) (cast 0x40e1c719),
      Float3.mk (cast 0x4268fece) (cast 0x4220854e) (cast 0x40eb67b4),
      Float3.mk (cast 0x4268fed0) (cast 0x4211854e) (cast 0x40eb67ba),
      Float3.mk (cast 0x426a140c) (cast 0x4211854e) (cast 0x4100e4ba),
      Float3.mk (cast 0x426a140a) (cast 0x4220854f) (cast 0x4100e4b7),
      Float3.mk (cast 0x4264a788) (cast 0x4220854e) (cast 0x40f30c28),
      Float3.mk (cast 0x4264a788) (cast 0x4211854e) (cast 0x40f30c33),
      Float3.mk (cast 0x426512ff) (cast 0x4211854e) (cast 0x410567e0),
      Float3.mk (cast 0x426512ff) (cast 0x4220854e) (cast 0x410567db),
      Float3.mk (cast 0x42603119) (cast 0x4220854e) (cast 0x40f53a84),
      Float3.mk (cast 0x42603119) (cast 0x4211854e) (cast 0x40f53a91),
      Float3.mk (cast 0x42603119) (cast 0x4211854e) (cast 0x41069d48),
      Float3.mk (cast 0x42603119) (cast 0x4220854e) (cast 0x41069d42),
      Float3.mk (cast 0x425bbaab) (cast 0x4220854e) (cast 0x40f30c2a),
      Float3.mk (cast 0x425bbaaa) (cast 0x4211854e) (cast 0x40f30c35),
      Float3.mk (cast 0x425b4f33) (cast 0x4211854e) (cast 0x410567e1),
      Float3.mk (cast 0x425b4f33) (cast 0x4220854e) (cast 0x410567dc),
      Float3.mk (cast 0x42576364) (cast 0x4220854e) (cast 0x40eb67b4),
      Float3.mk (cast 0x42576362) (cast 0x4211854e) (cast 0x40eb67ba),
      Float3.mk (cast 0x42564e26) (cast 0x4211854e) (cast 0x4100e4ba),
      Float3.mk (cast 0x42564e28) (cast 0x4220854e) (cast 0x4100e4b7),
      Float3.mk (cast 0x4250c2b2) (cast 0x42208550) (cast 0x40ccf10f),
      Float3.mk (cast 0x4250c2ae) (cast 0x42118550) (cast 0x40ccf10d),
      Float3.mk (cast 0x424f458c) (cast 0x42118550) (cast 0x40e1c719),
      Float3.mk (cast 0x424f4590) (cast 0x42208550) (cast 0x40e1c719),
      Float3.mk (cast 0x420ac54a) (cast 0x4213d21b) (cast 0x0),
      Float3.mk (cast 0x420ac54a) (cast 0x4213d21b) (cast 0x41a00000),
      Float3.mk (cast 0x42829d5b) (cast 0x4213d21b) (cast 0x0),
      Float3.mk (cast 0x42829d5b) (cast 0x4213d21b) (cast 0x41a00000),
      Float3.mk (cast 0x42222c9a) (cast 0x4213d21b) (cast 0x0),
      Float3.mk (cast 0x42222c9a) (cast 0x4213d21b) (cast 0x41a00000),
      Float3.mk (cast 0x426e4bb8) (cast 0x4213d21b) (cast 0x41a00000),
      Float3.mk (cast 0x426e4bb8) (cast 0x4213d21b) (cast 0x0),
      Float3.mk (cast 0x423e3598) (cast 0x4213d21b) (cast 0x0),
      Float3.mk (cast 0x423e3598) (cast 0x4213d21b) (cast 0x41a00000),
      Float3.mk (cast 0x425201c3) (cast 0x4213d21b) (cast 0x41a00000),
      Float3.mk (cast 0x425201c3) (cast 0x4213d21b) (cast 0x0),
      Float3.mk (cast 0x420ac54a) (cast 0x4213d21b) (cast 0x40e13a8e),
      Float3.mk (cast 0x42829d5b) (cast 0x4213d21b) (cast 0x40e13a8e),
      Float3.mk (cast 0x42222c9a) (cast 0x4213d21b) (cast 0x40e13a8e),
      Float3.mk (cast 0x426e4bb8) (cast 0x4213d21b) (cast 0x40e13a8e),
      Float3.mk (cast 0x423e3598) (cast 0x4213d21b) (cast 0x40e13a8e),
      Float3.mk (cast 0x425201c3) (cast 0x4213d21b) (cast 0x40e13a8e),
      Float3.mk (cast 0x423e3598) (cast 0x4217d21b) (cast 0x0),
      Float3.mk (cast 0x42222c9a) (cast 0x4217d21b) (cast 0x0),
      Float3.mk (cast 0x426e4bb8) (cast 0x4217d21b) (cast 0x0),
      Float3.mk (cast 0x425201c3) (cast 0x4217d21b) (cast 0x0),
      Float3.mk (cast 0x42222c9a) (cast 0x4217d21b) (cast 0x40e13a8e),
      Float3.mk (cast 0x426e4bb8) (cast 0x4217d21b) (cast 0x40e13a8e),
      Float3.mk (cast 0x423e3598) (cast 0x4217d21b) (cast 0x40e13a8e),
      Float3.mk (cast 0x425201c3) (cast 0x4217d21b) (cast 0x40e13a8e),
      Float3.mk (cast 0x4226d8c4) (cast 0x4219e044) (cast 0x40f65365),
      Float3.mk (cast 0x422b84ef) (cast 0x421a9b58) (cast 0x40feeba9),
      Float3.mk (cast 0x42303119) (cast 0x421ad21b) (cast 0x41009d47),
      Float3.mk (cast 0x4234dd44) (cast 0x421a9b58) (cast 0x40feeba9),
      Float3.mk (cast 0x4239896e) (cast 0x4219e044) (cast 0x40f65365),
      Float3.mk (cast 0x4226d8c4) (cast 0x4219dd90) (cast 0x0),
      Float3.mk (cast 0x422b84ef) (cast 0x421a9b45) (cast 0x0),
      Float3.mk (cast 0x42303119) (cast 0x421ad21b) (cast 0x0),
      Float3.mk (cast 0x4234dd44) (cast 0x421a9b45) (cast 0x0),
      Float3.mk (cast 0x4239896e) (cast 0x4219dd90) (cast 0x0),
      Float3.mk (cast 0x426994ba) (cast 0x4219db44) (cast 0x40f61127),
      Float3.mk (cast 0x4264ddbb) (cast 0x421a9a51) (cast 0x40fee072),
      Float3.mk (cast 0x426026bd) (cast 0x421ad21b) (cast 0x41009d47),
      Float3.mk (cast 0x425b6fbf) (cast 0x421a9a51) (cast 0x40fee072),
      Float3.mk (cast 0x4256b8c1) (cast 0x4219db46) (cast 0x40f6112c),
      Float3.mk (cast 0x426994ba) (cast 0x4219d861) (cast 0x0),
      Float3.mk (cast 0x4264ddbb) (cast 0x421a9a3d) (cast 0x0),
      Float3.mk (cast 0x426026bd) (cast 0x421ad21b) (cast 0x0),
      Float3.mk (cast 0x425b6fbf) (cast 0x421a9a3d) (cast 0x0),
      Float3.mk (cast 0x4256b8c1) (cast 0x4219d862) (cast 0x0),
      Float3.mk (cast 0x4226d8c4) (cast 0x4213d21b) (cast 0x41a00000),
      Float3.mk (cast 0x422b84ef) (cast 0x4213d21b) (cast 0x41a00000),
      Float3.mk (cast 0x42303119) (cast 0x4213d21b) (cast 0x41a00000),
      Float3.mk (cast 0x4234dd44) (cast 0x4213d21b) (cast 0x41a00000),
      Float3.mk (cast 0x4239896e) (cast 0x4213d21b) (cast 0x41a00000),
      Float3.mk (cast 0x4239896e) (cast 0x4213d21b) (cast 0x40f69896),
      Float3.mk (cast 0x4234dd44) (cast 0x4213d21b) (cast 0x40feedf8),
      Float3.mk (cast 0x42303119) (cast 0x4213d21b) (cast 0x41009d47),
      Float3.mk (cast 0x422b84ef) (cast 0x4213d21b) (cast 0x40feedfa),
      Float3.mk (cast 0x4226d8c4) (cast 0x4213d21b) (cast 0x40f69896),
      Float3.mk (cast 0x4256b8c1) (cast 0x4213d21b) (cast 0x41a00000),
      Float3.mk (cast 0x425b6fbf) (cast 0x4213d21b) (cast 0x41a00000),
      Float3.mk (cast 0x426026bd) (cast 0x4213d21b) (cast 0x41a00000),
      Float3.mk (cast 0x4264ddbb) (cast 0x4213d21b) (cast 0x41a00000),
      Float3.mk (cast 0x426994ba) (cast 0x4213d21b) (cast 0x41a00000),
      Float3.mk (cast 0x426994ba) (cast 0x4213d21b) (cast 0x40f65a6a),
      Float3.mk (cast 0x4264ddbb) (cast 0x4213d21b) (cast 0x40fee2d8),
      Float3.mk (cast 0x426026bd) (cast 0x4213d21b) (cast 0x41009d47),
      Float3.mk (cast 0x425b6fbf) (cast 0x4213d21b) (cast 0x40fee2d8),
      Float3.mk (cast 0x4256b8c1) (cast 0x4213d21b) (cast 0x40f65a6c),
      Float3.mk (cast 0x423f9f80) (cast 0x42208550) (cast 0x40ccf10f),
      Float3.mk (cast 0x423f9f84) (cast 0x42118550) (cast 0x40ccf10d),
      Float3.mk (cast 0x42411ca6) (cast 0x42118550) (cast 0x40e1c719),
      Float3.mk (cast 0x42411ca1) (cast 0x42208550) (cast 0x40e1c719),
      Float3.mk (cast 0x4238fece) (cast 0x4220854e) (cast 0x40eb67b4),
      Float3.mk (cast 0x4238fed0) (cast 0x4211854e) (cast 0x40eb67ba),
      Float3.mk (cast 0x423a140c) (cast 0x4211854e) (cast 0x4100e4ba),
      Float3.mk (cast 0x423a140a) (cast 0x4220854f) (cast 0x4100e4b7),
      Float3.mk (cast 0x4234a788) (cast 0x4220854e) (cast 0x40f30c28),
      Float3.mk (cast 0x4234a788) (cast 0x4211854e) (cast 0x40f30c33),
      Float3.mk (cast 0x423512ff) (cast 0x4211854e) (cast 0x410567e0),
      Float3.mk (cast 0x423512ff) (cast 0x4220854e) (cast 0x410567db),
      Float3.mk (cast 0x42303119) (cast 0x4220854e) (cast 0x40f53a84),
      Float3.mk (cast 0x42303119) (cast 0x4211854e) (cast 0x40f53a91),
      Float3.mk (cast 0x42303119) (cast 0x4211854e) (cast 0x41069d48),
      Float3.mk (cast 0x42303119) (cast 0x4220854e) (cast 0x41069d42),
      Float3.mk (cast 0x422bbaab) (cast 0x4220854e) (cast 0x40f30c2a),
      Float3.mk (cast 0x422bbaaa) (cast 0x4211854e) (cast 0x40f30c35),
      Float3.mk (cast 0x422b4f33) (cast 0x4211854e) (cast 0x410567e1),
      Float3.mk (cast 0x422b4f33) (cast 0x4220854e) (cast 0x410567dc),
      Float3.mk (cast 0x42276364) (cast 0x4220854e) (cast 0x40eb67b4),
      Float3.mk (cast 0x42276362) (cast 0x4211854e) (cast 0x40eb67ba),
      Float3.mk (cast 0x42264e26) (cast 0x4211854e) (cast 0x4100e4ba),
      Float3.mk (cast 0x42264e28) (cast 0x4220854e) (cast 0x4100e4b7),
      Float3.mk (cast 0x4220c2b2) (cast 0x42208550) (cast 0x40ccf10f),
      Float3.mk (cast 0x4220c2ae) (cast 0x42118550) (cast 0x40ccf10d),
      Float3.mk (cast 0x421f458c) (cast 0x42118550) (cast 0x40e1c719),
      Float3.mk (cast 0x421f4590) (cast 0x42208550) (cast 0x40e1c719)],
    list_indexed_triangle := [
      IndexedTriangle.mk 43 41 31 kIndexMaterial,
      IndexedTriangle.mk 43 31 34 kIndexMaterial,
      IndexedTriangle.mk 40 42 33 kIndexMaterial,
      IndexedTriangle.mk 40 33 29 kIndexMaterial,
      IndexedTriangle.mk 89 43 34 kIndexMaterial,
      IndexedTriangle.mk 89 34 88 kIndexMaterial,
      IndexedTriangle.mk 79 44 37 kIndexMaterial,
      IndexedTriangle.mk 79 37 78 kIndexMaterial,
      IndexedTriangle.mk 44 45 38 kIndexMaterial,
      IndexedTriangle.mk 44 38 37 kIndexMaterial,
      IndexedTriangle.mk 36 39 45 kIndexMaterial,
      IndexedTriangle.mk 36 45 44 kIndexMaterial,
      IndexedTriangle.mk 42 32 47 kIndexMaterial,
      IndexedTriangle.mk 42 47 50 kIndexMaterial,
      IndexedTriangle.mk 36 44 52 kIndexMaterial,
      IndexedTriangle.mk 36 52 46 kIndexMaterial,
      IndexedTriangle.mk 28 32 42 kIndexMaterial,
      IndexedTriangle.mk 28 42 40 kIndexMaterial,
      IndexedTriangle.mk 35 30 41 kIndexMaterial,
      IndexedTriangle.mk 35 41 43 kIndexMaterial,
      IndexedTriangle.mk 45 39 49 kIndexMaterial,
      IndexedTriangle.mk 45 49 53 kIndexMaterial,
      IndexedTriangle.mk 35 43 51 kIndexMaterial,
      IndexedTriangle.mk 35 51 48 kIndexMaterial,
      IndexedTriangle.mk 42 83 74 kIndexMaterial,
      IndexedTriangle.mk 42 74 33 kIndexMaterial,
      IndexedTriangle.mk 83 82 75 kIndexMaterial,
      IndexedTriangle.mk 83 75 74 kIndexMaterial,
      IndexedTriangle.mk 82 81 76 kIndexMaterial,
      IndexedTriangle.mk 82 76 75 kIndexMaterial,
      IndexedTriangle.mk 81 80 77 kIndexMaterial,
      IndexedTriangle.mk 81 77 76 kIndexMaterial,
      IndexedTriangle.mk 80 79 78 kIndexMaterial,
      IndexedTriangle.mk 80 78 77 kIndexMaterial,
      IndexedTriangle.mk 45 93 84 kIndexMaterial,
      IndexedTriangle.mk 45 84 38 kIndexMaterial,
      IndexedTriangle.mk 93 92 85 kIndexMaterial,
      IndexedTriangle.mk 93 85 84 kIndexMaterial,
      IndexedTriangle.mk 92 91 86 kIndexMaterial,
      IndexedTriangle.mk 92 86 85 kIndexMaterial,
      IndexedTriangle.mk 91 90 87 kIndexMaterial,
      IndexedTriangle.mk 91 87 86 kIndexMaterial,
      IndexedTriangle.mk 90 89 88 kIndexMaterial,
      IndexedTriangle.mk 90 88 87 kIndexMaterial,
      IndexedTriangle.mk 1 5 4 kIndexMaterial,
      IndexedTriangle.mk 1 4 0 kIndexMaterial,
      IndexedTriangle.mk 2 6 5 kIndexMaterial,
      IndexedTriangle.mk 2 5 1 kIndexMaterial,
      IndexedTriangle.mk 3 7 6 kIndexMaterial,
      IndexedTriangle.mk 3 6 2 kIndexMaterial,
      IndexedTriangle.mk 5 9 8 kIndexMaterial,
      IndexedTriangle.mk 5 8 4 kIndexMaterial,
      IndexedTriangle.mk 6 10 9 kIndexMaterial,
      IndexedTriangle.mk 6 9 5 kIndexMaterial,
      IndexedTriangle.mk 7 11 10 kIndexMaterial,
      IndexedTriangle.mk 7 10 6 kIndexMaterial,
      IndexedTriangle.mk 9 13 12 kIndexMaterial,
      IndexedTriangle.mk 9 12 8 kIndexMaterial,
      IndexedTriangle.mk 10 14 13 kIndexMaterial,
      IndexedTriangle.mk 10 13 9 kIndexMaterial,
      IndexedTriangle.mk 11 15 14 kIndexMaterial,
      IndexedTriangle.mk 11 14 10 kIndexMaterial,
      IndexedTriangle.mk 13 17 16 kIndexMaterial,
      IndexedTriangle.mk 13 16 12 kIndexMaterial,
      IndexedTriangle.mk 14 18 17 kIndexMaterial,
      IndexedTriangle.mk 14 17 13 kIndexMaterial,
      IndexedTriangle.mk 15 19 18 kIndexMaterial,
      IndexedTriangle.mk 15 18 14 kIndexMaterial,
      IndexedTriangle.mk 17 21 20 kIndexMaterial,
      IndexedTriangle.mk 17 20 16 kIndexMaterial,
      IndexedTriangle.mk 18 22 21 kIndexMaterial,
      IndexedTriangle.mk 18 21 17 kIndexMaterial,
      IndexedTriangle.mk 19 23 22 kIndexMaterial,
      IndexedTriangle.mk 19 22 18 kIndexMaterial,
      IndexedTriangle.mk 21 25 24 kIndexMaterial,
      IndexedTriangle.mk 21 24 20 kIndexMaterial,
      IndexedTriangle.mk 22 26 25 kIndexMaterial,
      IndexedTriangle.mk 22 25 21 kIndexMaterial,
      IndexedTriangle.mk 23 27 26 kIndexMaterial,
      IndexedTriangle.mk 23 26 22 kIndexMaterial,
      IndexedTriangle.mk 24 25 26 kIndexMaterial,
      IndexedTriangle.mk 24 26 27 kIndexMaterial,
      IndexedTriangle.mk 0 3 2 kIndexMaterial,
      IndexedTriangle.mk 0 2 1 kIndexMaterial,
      IndexedTriangle.mk 95 99 98 kIndexMaterial,
      IndexedTriangle.mk 95 98 94 kIndexMaterial,
      IndexedTriangle.mk 96 100 99 kIndexMaterial,
      IndexedTriangle.mk 96 99 95 kIndexMaterial,
      IndexedTriangle.mk 97 101 100 kIndexMaterial,
      IndexedTriangle.mk 97 100 96 kIndexMaterial,
      IndexedTriangle.mk 99 103 102 kIndexMaterial,
      IndexedTriangle.mk 99 102 98 kIndexMaterial,
      IndexedTriangle.mk 100 104 103 kIndexMaterial,
      IndexedTriangle.mk 100 103 99 kIndexMaterial,
      IndexedTriangle.mk 101 105 104 kIndexMaterial,
      IndexedTriangle.mk 101 104 100 kIndexMaterial,
      IndexedTriangle.mk 103 107 106 kIndexMaterial,
      IndexedTriangle.mk 103 106 102 kIndexMaterial,
      IndexedTriangle.mk 104 108 107 kIndexMaterial,
      IndexedTriangle.mk 104 107 103 kIndexMaterial,
      IndexedTriangle.mk 105 109 108 kIndexMaterial,
      IndexedTriangle.mk 105 108 104 kIndexMaterial,
      IndexedTriangle.mk 107 111 110 kIndexMaterial,
      IndexedTriangle.mk 107 110 106 kIndexMaterial,
      IndexedTriangle.mk 108 112 111 kIndexMaterial,
      IndexedTriangle.mk 108 111 107 kIndexMaterial,
      IndexedTriangle.mk 109 113 112 kIndexMaterial,
      IndexedTriangle.mk 109 112 108 kIndexMaterial,
      IndexedTriangle.mk 111 115 114 kIndexMaterial,
      IndexedTriangle.mk 111 114 110 kIndexMaterial,
      IndexedTriangle.mk 112 116 115 kIndexMaterial,
      IndexedTriangle.mk 112 115 111 kIndexMaterial,
      IndexedTriangle.mk 113 117 116 kIndexMaterial,
      IndexedTriangle.mk 113 116 112 kIndexMaterial,
      IndexedTriangle.mk 115 119 118 kIndexMaterial,
      IndexedTriangle.mk 115 118 114 kIndexMaterial,
      IndexedTriangle.mk 116 120 119 kIndexMaterial,
      IndexedTriangle.mk 116 119 115 kIndexMaterial,
      IndexedTriangle.mk 117 121 120 kIndexMaterial,
      IndexedTriangle.mk 117 120 116 kIndexMaterial,
      IndexedTriangle.mk 118 119 120 kIndexMaterial,
      IndexedTriangle.mk 118 120 121 kIndexMaterial,
      IndexedTriangle.mk 94 97 96 kIndexMaterial,
      IndexedTriangle.mk 94 96 95 kIndexMaterial,
      IndexedTriangle.mk 68 53 49 kIndexMaterial,
      IndexedTriangle.mk 68 49 73 kIndexMaterial,
      IndexedTriangle.mk 58 63 46 kIndexMaterial,
      IndexedTriangle.mk 58 46 52 kIndexMaterial,
      IndexedTriangle.mk 50 47 59 kIndexMaterial,
      IndexedTriangle.mk 50 59 54 kIndexMaterial,
      IndexedTriangle.mk 54 59 60 kIndexMaterial,
      IndexedTriangle.mk 54 60 55 kIndexMaterial,
      IndexedTriangle.mk 55 60 61 kIndexMaterial,
      IndexedTriangle.mk 55 61 56 kIndexMaterial,
      IndexedTriangle.mk 56 61 62 kIndexMaterial,
      IndexedTriangle.mk 56 62 57 kIndexMaterial,
      IndexedTriangle.mk 57 62 63 kIndexMaterial,
      IndexedTriangle.mk 57 63 58 kIndexMaterial,
      IndexedTriangle.mk 51 64 69 kIndexMaterial,
      IndexedTriangle.mk 51 69 48 kIndexMaterial,
      IndexedTriangle.mk 64 65 70 kIndexMaterial,
      IndexedTriangle.mk 64 70 69 kIndexMaterial,
      IndexedTriangle.mk 65 66 71 kIndexMaterial,
      IndexedTriangle.mk 65 71 70 kIndexMaterial,
      IndexedTriangle.mk 66 67 72 kIndexMaterial,
      IndexedTriangle.mk 66 72 71 kIndexMaterial,
      IndexedTriangle.mk 67 68 73 kIndexMaterial,
      IndexedTriangle.mk 67 73 72 kIndexMaterial] }

def test_vec_mesh_shape_settings : List MeshShapeSettings :=
  [mesh_ground, mesh_outer_corner_column, mesh_outer_wall_segment_joined]

/-! ## The engine, as the harness sees it -/

/-- The engine's `CharacterBase::EGroundState`. -/
inductive EGroundState
  | OnGround
  | OnSteepGround
  | NotSupported
  | InAir
deriving DecidableEq

/-- A reference to a shape the engine created. -/
abbrev ShapeRef := Nat

/-- A reference to a `CharacterVirtualSettings` object built by the engine. -/
abbrev SettingsRef := Nat

/-- The engine's `JPH::BodyID`. -/
abbrev BodyID := Nat

/-- One item written to `std::cout` with `<<`. -/
inductive Tok
  | str (s : String)
  | flt (f : F32)
  | endl
deriving DecidableEq

/-- The engine calls of `main` that hand nothing back to the harness, with
their arguments. `JobSystemSingleThreaded` is constructed with the engine's
constant `cMaxPhysicsJobs`, `Init` with the limits and the three layer policy
objects of the harness. `ExtendedUpdate` carries the time step, the gravity,
the update settings and the object layer of each of the two default filters;
its body filter, shape filter and allocator arguments are fixed. `Update`
carries the time step and the number of collision steps; its allocator and job
system arguments are fixed. -/
inductive Cmd
  | RegisterDefaultAllocator
  | NewFactory
  | RegisterTypes
  | TempAllocatorImpl (size : Nat)
  | JobSystemSingleThreaded
  | NewPhysicsSystem
  | SetGravity (g : Vec3)
  | Init (maxBodies numBodyMutexes maxBodyPairs maxContactConstraints : Nat)
  | OptimizeBroadPhase
  | NewCharacterVirtual (settings : SettingsRef) (position : Vec3)
  | SetLinearVelocity (v : Vec3)
  | ExtendedUpdate (deltaTime : F32) (gravity : Vec3) (settings : ExtendedUpdateSettings)
      (broadPhaseFilterLayer objectFilterLayer : ObjectLayer)
  | Update (deltaTime : F32) (collisionSteps : Nat)
  | RemoveBody (id : BodyID)
  | DestroyBody (id : BodyID)
  | UnregisterTypes
  | DeleteFactory
deriving DecidableEq

/-- The physics engine behind the harness, with an arbitrary state `σ`:
how each call changes the state and what each query answers. The getters are
`const` in the engine and leave the state alone. `BuildCharacterSettings`
stands for the body of `test_character_virtual_settings`, which builds a shape
and a settings object inside the engine from constants and returns the
reference. -/
structure Engine (σ : Type) where
  exec : Cmd → σ → σ
  GetPosition : σ → Vec3
  GetGroundState : σ → EGroundState
  GetLinearVelocity : σ → Vec3
  GetGravity : σ → Vec3
  CreateMeshShape : MeshShapeSettings → σ → ShapeRef × σ
  CreateAndAddBody : ShapeRef → Vec3 → ObjectLayer → σ → BodyID × σ
  BuildCharacterSettings : σ → SettingsRef × σ

/-- What the harness does, in program order: an engine call with its
arguments and the value the engine returned, or a statement writing to
`std::cout`. `CreateAndAddBody` carries the shape, the position and the object
layer of the body; its rotation (identity), motion type (`Static`) and
activation mode (`DontActivate`) are fixed. -/
inductive Event
  | cmd (c : Cmd)
  | GetPosition (ret : Vec3)
  | GetGroundState (ret : EGroundState)
  | GetLinearVelocity (ret : Vec3)
  | GetGravity (ret : Vec3)
  | CreateMeshShape (settings : MeshShapeSettings) (ret : ShapeRef)
  | CreateAndAddBody (shape : ShapeRef) (position : Vec3) (layer : ObjectLayer) (ret : BodyID)
  | BuildCharacterSettings (ret : SettingsRef)
  | Print (toks : List Tok)
deriving DecidableEq

/-- The running program: the engine's state and the events so far. -/
structure World (σ : Type) where
  eng : σ
  trace : List Event

namespace World

variable {σ : Type}

/-- Append an event. -/
def record (w : World σ) (e : Event) : World σ := { w with trace := w.trace ++ [e] }

/-- Issue a call that returns nothing. -/
def exec (E : Engine σ) (w : World σ) (c : Cmd) : World σ :=
  ⟨E.exec c w.eng, w.trace ++ [Event.cmd c]⟩

end World

/-! ## The character controller driver -/

section Harness

variable {σ : Type}

def test_character_set_linear_velocity (E : Engine σ) (w : World σ) (delta_time : F32) :
    World σ :=
  let linear_velocity : Vec3 := ⟨cast 0xc0a53844, cast 0x40439dba, lit_0_0f⟩
  let ground := E.GetGroundState w.eng
  let w := w.record (Event.GetGroundState ground)
  let r : Vec3 × World σ :=
    if ground = EGroundState.OnGround then
      (linear_velocity.SetZ lit_5_0f, w)
    else
      let v := E.GetLinearVelocity w.eng
      (linear_velocity.SetZ v.GetZ, w.record (Event.GetLinearVelocity v))
  let kVecJumpGravity : Vec3 := ⟨lit_0_0f, lit_0_0f, lit_m14_0f⟩
  let linear_velocity := r.1.add (kVecJumpGravity.mulScalar delta_time)
  r.2.exec E (Cmd.SetLinearVelocity linear_velocity)

/-! ## Main logic -/

def kMaxBodies : Nat := 1024

def kNumBodyMutexes : Nat := 0

def kMaxBodyPairs : Nat := 1024

def kMaxContactConstraints : Nat := 1024

def kMaxNumSteps : Nat := 100

def kCollisionSteps : Nat := 1

/-- The local variables of `main` that live across the iterations of the
simulation loop. -/
structure LoopState (σ : Type) where
  w : World σ
  p_last : Vec3
  max_length_delta : F32

/-- The marker `prefix` of a step line. -/
def stepMarker (length_delta : F32) : String :=
  if length_delta.gt lit_0_3f then ">" else " "

/-- The `std::cout` statement inside the loop. -/
def stepLine (pfx : String) (p_this delta : Vec3) : List Tok :=
  [Tok.str pfx, Tok.str " pos.xy: (", Tok.flt p_this.GetX, Tok.str ", ",
   Tok.flt p_this.GetY, Tok.str ")", Tok.str " delta.xy: (", Tok.flt delta.GetX,
   Tok.str ", ", Tok.flt delta.GetY, Tok.str ")", Tok.endl]

/-- The `std::cout` statement after the loop. -/
def summaryLine (max_length_delta : F32) : List Tok :=
  [Tok.endl, Tok.str "max delta: ", Tok.flt max_length_delta, Tok.endl]

/-- The body of the `for` loop of `main`. -/
def loopBody (E : Engine σ) (st : LoopState σ) : LoopState σ :=
  let p_this := E.GetPosition st.w.eng
  let w := st.w.record (Event.GetPosition p_this)
  let delta := p_this.sub st.p_last
  let length_delta := delta.Length
  let max_length_delta :=
    if length_delta.gt st.max_length_delta then length_delta else st.max_length_delta
  let pfx := stepMarker length_delta
  let w := w.record (Event.Print (stepLine pfx p_this delta))
  let delta_time := test_delta_time
  let w := test_character_set_linear_velocity E w delta_time
  let gravity := E.GetGravity w.eng
  let w := w.record (Event.GetGravity gravity)
  let w := w.exec E (Cmd.ExtendedUpdate delta_time gravity test_extended_update_settings
    ObjectLayerImpl.kDynamic ObjectLayerImpl.kDynamic)
  let w := w.exec E (Cmd.Update delta_time kCollisionSteps)
  ⟨w, p_this, max_length_delta⟩

/-- The `for` loop of `main`, entered with the counter at `num_steps`. -/
def simulationLoop (E : Engine σ) (num_steps : Nat) (st : LoopState σ) : LoopState σ :=
  if num_steps < kMaxNumSteps then simulationLoop E (num_steps + 1) (loopBody E st) else st
termination_by kMaxNumSteps - num_steps

/-- The block "Run simulation for a while" of `main`. -/
def runSimulation (E : Engine σ) (w : World σ) : World σ :=
  let p_last := E.GetPosition w.eng
  let w := w.record (Event.GetPosition p_last)
  let st := simulationLoop E 0 ⟨w, p_last, lit_0_0f⟩
  st.w.record (Event.Print (summaryLine st.max_length_delta))

/-- The loop of the block "Add bodies": one shape and one static body per mesh,
the body ids collected in `vec_id_body`. -/
def addBodies (E : Engine σ) :
    List MeshShapeSettings → World σ × List BodyID → World σ × List BodyID
  | [], acc => acc
  | settings :: rest, (w, vec_id_body) =>
    let p_world : Vec3 := ⟨lit_0_0f, lit_0_0f, lit_0_0f⟩
    let shape := E.CreateMeshShape settings w.eng
    let w : World σ := ⟨shape.2, w.trace ++ [Event.CreateMeshShape settings shape.1]⟩
    let body := E.CreateAndAddBody shape.1 p_world ObjectLayerImpl.kStatic w.eng
    let w : World σ :=
      ⟨body.2, w.trace ++
        [Event.CreateAndAddBody shape.1 p_world ObjectLayerImpl.kStatic body.1]⟩
    addBodies E rest (w, vec_id_body ++ [body.1])

/-- The loop of the block "Remove/destroy bodies". -/
def removeBodies (E : Engine σ) : List BodyID → World σ → World σ
  | [], w => w
  | id_body :: rest, w =>
    removeBodies E rest ((w.exec E (Cmd.RemoveBody id_body)).exec E (Cmd.DestroyBody id_body))

/-- The blocks "Set up persistent state", "Resources used during physics
update", "Physics system settings" and "Create physics system" of `main`,
started on the engine state `s`. -/
def createPhysicsSystem (E : Engine σ) (s : σ) : World σ :=
  let w : World σ := ⟨s, []⟩
  let w := w.exec E Cmd.RegisterDefaultAllocator
  let w := w.exec E Cmd.NewFactory
  let w := w.exec E Cmd.RegisterTypes
  let w := w.exec E (Cmd.TempAllocatorImpl (10 * 1024 * 1024))
  let w := w.exec E Cmd.JobSystemSingleThreaded
  let w := w.exec E Cmd.NewPhysicsSystem
  let w := w.exec E (Cmd.SetGravity test_physics_system_gravity)
  w.exec E (Cmd.Init kMaxBodies kNumBodyMutexes kMaxBodyPairs kMaxContactConstraints)

/-- The block "Set up controller" of `main`. -/
def setupController (E : Engine σ) (w : World σ) : World σ :=
  let settings := E.BuildCharacterSettings w.eng
  let w : World σ := ⟨settings.2, w.trace ++ [Event.BuildCharacterSettings settings.1]⟩
  w.exec E (Cmd.NewCharacterVirtual settings.1 test_character_position_initial)

/-- The blocks of `main` before the simulation, from "Set up persistent state"
to "Set up controller", started on the engine state `s`: the world they leave
and the body ids in `vec_id_body`. -/
def setup (E : Engine σ) (s : σ) : World σ × List BodyID :=
  let w := createPhysicsSystem E s
  let r := addBodies E test_vec_mesh_shape_settings (w, [])
  let w := r.1.exec E Cmd.OptimizeBroadPhase
  (setupController E w, r.2)

/-- The function `main`, started on the engine state `s`. -/
def main (E : Engine σ) (s : σ) : World σ :=
  let r := setup E s
  let w := runSimulation E r.1
  let w := removeBodies E r.2 w
  let w := w.exec E Cmd.UnregisterTypes
  w.exec E Cmd.DeleteFactory

end Harness

/-! ## Observing a run of the simulation loop -/

section Observations

variable {σ : Type}

/-- The loop state with which `runSimulation` enters the `for` loop: the
position has been read into `p_last` and `max_length_delta` is `0.0f`. -/
def loopEntry (E : Engine σ) (w : World σ) : LoopState σ :=
  ⟨w.record (Event.GetPosition (E.GetPosition w.eng)), E.GetPosition w.eng, lit_0_0f⟩

/-- The loop state when iteration `i` (counted from 0) starts. -/
def stateAt (E : Engine σ) (w : World σ) (i : Nat) : LoopState σ :=
  (loopBody E)^[i] (loopEntry E w)

/-- The value of `p_this` in iteration `i`. -/
def positionAt (E : Engine σ) (w : World σ) (i : Nat) : Vec3 :=
  E.GetPosition (stateAt E w i).w.eng

/-- The value of `delta` in iteration `i`. -/
def deltaAt (E : Engine σ) (w : World σ) (i : Nat) : Vec3 :=
  (positionAt E w i).sub (stateAt E w i).p_last

/-- The value of `length_delta` in iteration `i`: the displacement magnitude of
that step. -/
def lengthDeltaAt (E : Engine σ) (w : World σ) (i : Nat) : F32 :=
  (deltaAt E w i).Length

/-- The events `test_character_set_linear_velocity` adds to the trace when the
engine is in state `eng`. -/
def driveEvents (E : Engine σ) (eng : σ) (delta_time : F32) : List Event :=
  (test_character_set_linear_velocity E ⟨eng, []⟩ delta_time).trace

/-- The engine state `test_character_set_linear_velocity` leaves when it
starts in state `eng`. -/
def driveEng (E : Engine σ) (eng : σ) (delta_time : F32) : σ :=
  (test_character_set_linear_velocity E ⟨eng, []⟩ delta_time).eng

/-- The events one iteration of the loop adds to the trace. -/
def iterEvents (E : Engine σ) (st : LoopState σ) : List Event :=
  (loopBody E ⟨⟨st.w.eng, []⟩, st.p_last, st.max_length_delta⟩).w.trace

/-- The events the block "Run simulation for a while" adds to the trace. -/
def simulationEvents (E : Engine σ) (w : World σ) : List Event :=
  (runSimulation E ⟨w.eng, []⟩).trace

end Observations

/-- The `std::cout` statements of a trace, in order. -/
def printed (t : List Event) : List (List Tok) :=
  t.filterMap fun e =>
    match e with
    | Event.Print toks => some toks
    | _ => none

/-- The comparison `x >= y` of C++: false when either side is a NaN. -/
def F32.ge (x y : F32) : Bool :=
  !x.isNaN && !y.isNaN && decide (y.key ≤ x.key)

/-- The lines of tokens written to `std::cout`, joined: the output of the
program as a sequence of tokens. -/
def output (t : List Event) : List Tok := (printed t).flatten

namespace Event

/-- An event of the simulation block, as opposed to one of the set-up and
tear-down blocks of `main`. -/
def inSimulation : Event → Bool
  | GetPosition _ => true
  | GetGroundState _ => true
  | GetLinearVelocity _ => true
  | GetGravity _ => true
  | Print _ => true
  | cmd (Cmd.SetLinearVelocity _) => true
  | cmd (Cmd.ExtendedUpdate _ _ _ _ _) => true
  | cmd (Cmd.Update _ _) => true
  | _ => false

def isGetGroundState : Event → Bool
  | GetGroundState _ => true
  | _ => false

def isSetLinearVelocity : Event → Bool
  | cmd (Cmd.SetLinearVelocity _) => true
  | _ => false

def isExtendedUpdate : Event → Bool
  | cmd (Cmd.ExtendedUpdate _ _ _ _ _) => true
  | _ => false

/-- A call of `PhysicsSystem::Update`, with any arguments. -/
def isUpdate : Event → Bool
  | cmd (Cmd.Update _ _) => true
  | _ => false

/-- A call of `PhysicsSystem::Update` with one collision step. -/
def isUpdateOneStep : Event → Bool
  | cmd (Cmd.Update _ n) => decide (n = 1)
  | _ => false

end Event

/-- A value the engine hands back to the harness. -/
inductive Answer
  | position (v : Vec3)
  | groundState (g : EGroundState)
  | velocity (v : Vec3)
  | gravity (v : Vec3)
  | shape (r : ShapeRef)
  | body (id : BodyID)
  | settings (r : SettingsRef)
deriving DecidableEq

/-- The answers that are positions, velocities or ground states. -/
def Answer.isKinematic : Answer → Bool
  | Answer.position _ => true
  | Answer.groundState _ => true
  | Answer.velocity _ => true
  | _ => false

/-- The value the engine returned in an event, if the event is a call that
returns one. -/
def Event.answer : Event → Option Answer
  | Event.GetPosition r => some (Answer.position r)
  | Event.GetGroundState r => some (Answer.groundState r)
  | Event.GetLinearVelocity r => some (Answer.velocity r)
  | Event.GetGravity r => some (Answer.gravity r)
  | Event.CreateMeshShape _ r => some (Answer.shape r)
  | Event.CreateAndAddBody _ _ _ r => some (Answer.body r)
  | Event.BuildCharacterSettings r => some (Answer.settings r)
  | Event.cmd _ => none
  | Event.Print _ => none

/-- The values the engine returned during a run, in order. -/
def answers (t : List Event) : List Answer := t.filterMap Event.answer

/-- An engine call with its arguments, without the value returned. -/
inductive Call
  | cmd (c : Cmd)
  | GetPosition
  | GetGroundState
  | GetLinearVelocity
  | GetGravity
  | CreateMeshShape (settings : MeshShapeSettings)
  | CreateAndAddBody (shape : ShapeRef) (position : Vec3) (layer : ObjectLayer)
  | BuildCharacterSettings
deriving DecidableEq

/-- The engine call of an event, if the event is one. -/
def Event.call : Event → Option Call
  | Event.cmd c => some (Call.cmd c)
  | Event.GetPosition _ => some Call.GetPosition
  | Event.GetGroundState _ => some Call.GetGroundState
  | Event.GetLinearVelocity _ => some Call.GetLinearVelocity
  | Event.GetGravity _ => some Call.GetGravity
  | Event.CreateMeshShape m _ => some (Call.CreateMeshShape m)
  | Event.CreateAndAddBody sh p l _ => some (Call.CreateAndAddBody sh p l)
  | Event.BuildCharacterSettings _ => some Call.BuildCharacterSettings
  | Event.Print _ => none

/-- The engine calls of a run with their arguments, in order. -/
def calls (t : List Event) : List Call := t.filterMap Event.call

/-- The settings an event hands to `ExtendedUpdate`, if it is such a call. -/
def Event.extendedUpdateSettings : Event → Option ExtendedUpdateSettings
  | Event.cmd (Cmd.ExtendedUpdate _ _ settings _ _) => some settings
  | _ => none

/-- The object layers an event hands to the engine: the layer of a body that
is created, and the layers of the two default filters of `ExtendedUpdate`. -/
def Event.layers : Event → List ObjectLayer
  | Event.CreateAndAddBody _ _ layer _ => [layer]
  | Event.cmd (Cmd.ExtendedUpdate _ _ _ l₁ l₂) => [l₁, l₂]
  | _ => []

/-- The comparison `x <= y` of C++: false when either side is a NaN. -/
def F32.le (x y : F32) : Bool := F32.ge y x

/-- The real number a finite bit pattern stands for, as a rational: the signed
magnitude times `2^-149`. -/
def F32.toRat (x : F32) : ℚ := (x.key : ℚ) / 2 ^ 149

/-! ## A small concrete engine

Used to run the harness on concrete inputs. -/

/-- State of the small engine. -/
structure Toy where
  updates : Nat
  bodies : Nat
  velocity : Vec3
  gravity : Vec3
deriving DecidableEq

/-- The literal `1.0f`. -/
def lit_1_0f : F32 := ⟨0x3f800000⟩

/-- A small engine: the character stands at the origin and is moved to
`(1, 0, 0)` by the `Update` call number `jumpAt`; it is on the ground before
every second step; velocity and gravity are what was last set; body ids are
handed out from `firstId` upwards. -/
def toyEngine (jumpAt firstId : Nat) : Engine Toy where
  exec c s :=
    match c with
    | Cmd.Update _ _ => { s with updates := s.updates + 1 }
    | Cmd.SetLinearVelocity v => { s with velocity := v }
    | Cmd.SetGravity g => { s with gravity := g }
    | _ => s
  GetPosition s :=
    if jumpAt ≤ s.updates then ⟨lit_1_0f, lit_0_0f, lit_0_0f⟩
    else ⟨lit_0_0f, lit_0_0f, lit_0_0f⟩
  GetGroundState s :=
    if s.updates % 2 = 0 then EGroundState.OnGround else EGroundState.InAir
  GetLinearVelocity s := s.velocity
  GetGravity s := s.gravity
  CreateMeshShape m s := (m.list_vertex.length, s)
  CreateAndAddBody _ _ _ s := (firstId + s.bodies, { s with bodies := s.bodies + 1 })
  BuildCharacterSettings s := (0, s)

/-- Initial state of the small engine. -/
def toyStart : Toy :=
  ⟨0, 0, ⟨lit_0_0f, lit_0_0f, lit_0_0f⟩, ⟨lit_0_0f, lit_0_0f, lit_0_0f⟩⟩

/-- The positions the engine returned to `GetPosition`, in the order of the
calls in the trace. -/
def positionsRead (t : List Event) : List Vec3 :=
  t.filterMap fun e =>
    match e with
    | Event.GetPosition p => some p
    | _ => none

/-- The displacement between each position the engine returned and the one it
returned before: for positions `q_0, q_1, ..., q_n` the vectors
`q_1 - q_0, ..., q_n - q_(n-1)`. -/
def displacementsRead (t : List Event) : List Vec3 :=
  List.zipWith Vec3.sub (positionsRead t).tail (positionsRead t)

/-- The magnitudes of the displacements between consecutive positions the
engine returned. -/
def magnitudesRead (t : List Event) : List F32 :=
  (displacementsRead t).map Vec3.Length

/-- State of the engine `placedEngine`: where the character is and how many
`Update` calls there have been. -/
structure Placed where
  position : Vec3
  updates : Nat
deriving DecidableEq

/-- A small engine that puts the character where `NewCharacterVirtual` is told
to and moves it by one unit along X in each `Update` call whose number is in
`jumps`. -/
def placedEngine (jumps : List Nat) : Engine Placed where
  exec c s :=
    match c with
    | Cmd.NewCharacterVirtual _ p => { s with position := p }
    | Cmd.Update _ _ =>
      if s.updates + 1 ∈ jumps then
        ⟨⟨F32.add s.position.x lit_1_0f, s.position.y, s.position.z⟩, s.updates + 1⟩
      else { s with updates := s.updates + 1 }
    | _ => s
  GetPosition s := s.position
  GetGroundState _ := EGroundState.OnGround
  GetLinearVelocity _ := ⟨lit_0_0f, lit_0_0f, lit_0_0f⟩
  GetGravity _ := test_physics_system_gravity
  CreateMeshShape _ s := (0, s)
  CreateAndAddBody _ _ _ s := (0, s)
  BuildCharacterSettings s := (0, s)

/-- Initial state of `placedEngine`. -/
def placedStart : Placed := ⟨⟨lit_0_0f, lit_0_0f, lit_0_0f⟩, 0⟩

/-! # Theorems -/

/-! ## Scalars -/

theorem F32.mul_zero_of_finite (dt : F32) (hdt : dt.isFinite = true) :
    F32.mul lit_0_0f dt = F32.zero dt.sign := by
  have hexp : dt.expo < 255 := by simpa [F32.isFinite] using hdt
  have hne : dt.expo ≠ 255 := Nat.ne_of_lt hexp
  have h0 : (⟨0⟩ : F32).mag = 0 := by decide
  have h0s : (⟨0⟩ : F32).sign = false := by decide
  have h0n : (⟨0⟩ : F32).isNaN = false := by decide
  have h0i : (⟨0⟩ : F32).isInf = false := by decide
  have hn : dt.isNaN = false := by simp [F32.isNaN, hne]
  have hi : dt.isInf = false := by simp [F32.isInf, hne]
  simp [F32.mul, lit_0_0f, h0, h0s, h0n, h0i, hn, hi, F32.roundPack]

set_option maxRecDepth 100000 in
theorem F32.add_signed_zero_x (b : Bool) :
    F32.add (cast 0xc0a53844) (F32.zero b) = cast 0xc0a53844 := by
  cases b <;> decide

set_option maxRecDepth 100000 in
theorem F32.add_signed_zero_y (b : Bool) :
    F32.add (cast 0x40439dba) (F32.zero b) = cast 0x40439dba := by
  cases b <;> decide

/-! ## The character controller driver -/

section DriverTheorems

variable {σ : Type}

/-- C1. For every engine state (so for every ground state and previous
velocity of the character) and every finite time step `dt`,
`test_character_set_linear_velocity` ends with the engine state produced by one
`SetLinearVelocity` call on the state it started from, the only call in its
trace that writes; the velocity written has the X and Y of
`test_linear_velocity_xy()` and Z equal to `5 + (-14)*dt` when the ground state
is `OnGround` and to `vz + (-14)*dt` otherwise, `vz` being the Z of the
previous velocity. -/
theorem test_character_set_linear_velocity_spec (E : Engine σ) (w : World σ) (dt : F32)
    (hdt : dt.isFinite = true) :
    (test_character_set_linear_velocity E w dt).eng =
        E.exec (Cmd.SetLinearVelocity
          ⟨test_linear_velocity_xy.x, test_linear_velocity_xy.y,
            F32.add (if E.GetGroundState w.eng = EGroundState.OnGround then lit_5_0f
                     else (E.GetLinearVelocity w.eng).z)
              (F32.mul lit_m14_0f dt)⟩) w.eng ∧
    (test_character_set_linear_velocity E w dt).trace =
        w.trace ++ [Event.GetGroundState (E.GetGroundState w.eng)] ++
          (if E.GetGroundState w.eng = EGroundState.OnGround then []
           else [Event.GetLinearVelocity (E.GetLinearVelocity w.eng)]) ++
          [Event.cmd (Cmd.SetLinearVelocity
            ⟨test_linear_velocity_xy.x, test_linear_velocity_xy.y,
              F32.add (if E.GetGroundState w.eng = EGroundState.OnGround then lit_5_0f
                       else (E.GetLinearVelocity w.eng).z)
                (F32.mul lit_m14_0f dt)⟩)] := by
  have hx := F32.add_signed_zero_x dt.sign
  have hy := F32.add_signed_zero_y dt.sign
  have hm := F32.mul_zero_of_finite dt hdt
  by_cases hg : E.GetGroundState w.eng = EGroundState.OnGround
  · simp [test_character_set_linear_velocity, hg, World.exec, World.record, Vec3.add,
      Vec3.mulScalar, Vec3.SetZ, test_linear_velocity_xy, hm, hx, hy]
  · simp [test_character_set_linear_velocity, hg, World.exec, World.record, Vec3.add,
      Vec3.mulScalar, Vec3.SetZ, Vec3.GetZ, test_linear_velocity_xy, hm, hx, hy]

/-- C1 at a concrete input: the small engine in its initial state (on the
ground) and the time step of the harness. -/
theorem test_character_set_linear_velocity_spec_witness :
    test_delta_time.isFinite = true ∧
    (test_character_set_linear_velocity (toyEngine 100 0) ⟨toyStart, []⟩ test_delta_time).eng =
      (toyEngine 100 0).exec (Cmd.SetLinearVelocity
        ⟨cast 0xc0a53844, cast 0x40439dba,
          F32.add lit_5_0f (F32.mul lit_m14_0f test_delta_time)⟩) toyStart :=
  ⟨by decide,
   (test_character_set_linear_velocity_spec (toyEngine 100 0) ⟨toyStart, []⟩ test_delta_time
      (by decide)).1⟩

end DriverTheorems

/-! ## Layers and collision rules -/

/-- C2. `ObjectLayerPairFilterImpl::ShouldCollide(l1, l2)`: with `l1` the static
layer it returns true exactly when `l2` is the dynamic layer, with `l1` the
dynamic layer it returns true for every `l2`; so static-dynamic, dynamic-static
and dynamic-dynamic collide and static-static does not. -/
theorem ObjectLayerPairFilterImpl_ShouldCollide_rule :
    (∀ l2 : ObjectLayer,
      (ObjectLayerPairFilterImpl.ShouldCollide ObjectLayerImpl.kStatic l2).value = true ↔
        l2 = ObjectLayerImpl.kDynamic) ∧
    (∀ l2 : ObjectLayer,
      (ObjectLayerPairFilterImpl.ShouldCollide ObjectLayerImpl.kDynamic l2).value = true) ∧
    (ObjectLayerPairFilterImpl.ShouldCollide
      ObjectLayerImpl.kStatic ObjectLayerImpl.kDynamic).value = true ∧
    (ObjectLayerPairFilterImpl.ShouldCollide
      ObjectLayerImpl.kDynamic ObjectLayerImpl.kStatic).value = true ∧
    (ObjectLayerPairFilterImpl.ShouldCollide
      ObjectLayerImpl.kDynamic ObjectLayerImpl.kDynamic).value = true ∧
    (ObjectLayerPairFilterImpl.ShouldCollide
      ObjectLayerImpl.kStatic ObjectLayerImpl.kStatic).value = false := by
  refine ⟨?_, ?_, ?_, ?_, ?_, ?_⟩ <;>
    simp [ObjectLayerPairFilterImpl.ShouldCollide, ObjectLayerImpl.kStatic,
      ObjectLayerImpl.kDynamic]

/-- C3. For object layers `a`, `b` among static and dynamic,
`ObjectVsBroadPhaseLayerFilterImpl::ShouldCollide(a, GetBroadPhaseLayer(b))`
equals `ObjectLayerPairFilterImpl::ShouldCollide(a, b)`, and no assertion
fires on the way. -/
theorem ObjectVsBroadPhaseLayerFilterImpl_mirrors (a b : ObjectLayer)
    (ha : a = ObjectLayerImpl.kStatic ∨ a = ObjectLayerImpl.kDynamic)
    (hb : b = ObjectLayerImpl.kStatic ∨ b = ObjectLayerImpl.kDynamic) :
    ObjectVsBroadPhaseLayerFilterImpl.ShouldCollide a
        (BroadPhaseLayerInterfaceImpl.GetBroadPhaseLayer b).value =
      ObjectLayerPairFilterImpl.ShouldCollide a b ∧
    (BroadPhaseLayerInterfaceImpl.GetBroadPhaseLayer b).assertFailed = false ∧
    (ObjectLayerPairFilterImpl.ShouldCollide a b).assertFailed = false := by
  rcases ha with rfl | rfl <;> rcases hb with rfl | rfl <;> decide

/-- C3 at a concrete input: static against dynamic. -/
theorem ObjectVsBroadPhaseLayerFilterImpl_mirrors_witness :
    ObjectVsBroadPhaseLayerFilterImpl.ShouldCollide ObjectLayerImpl.kStatic
        (BroadPhaseLayerInterfaceImpl.GetBroadPhaseLayer ObjectLayerImpl.kDynamic).value =
      ObjectLayerPairFilterImpl.ShouldCollide ObjectLayerImpl.kStatic
        ObjectLayerImpl.kDynamic :=
  (ObjectVsBroadPhaseLayerFilterImpl_mirrors ObjectLayerImpl.kStatic ObjectLayerImpl.kDynamic
    (Or.inl rfl) (Or.inr rfl)).1

/-- C4. `BroadPhaseLayerInterfaceImpl::GetBroadPhaseLayer` maps static to
broad-phase layer 0 and dynamic to broad-phase layer 1; distinct defined object
layers get distinct broad-phase layers; and every broad-phase layer below
`GetNumBroadPhaseLayers() = 2` is the image of a defined object layer. -/
theorem BroadPhaseLayerInterfaceImpl_GetBroadPhaseLayer_bijective :
    (BroadPhaseLayerInterfaceImpl.GetBroadPhaseLayer ObjectLayerImpl.kStatic).value = 0 ∧
    (BroadPhaseLayerInterfaceImpl.GetBroadPhaseLayer ObjectLayerImpl.kDynamic).value = 1 ∧
    (∀ a b : ObjectLayer,
      (a = ObjectLayerImpl.kStatic ∨ a = ObjectLayerImpl.kDynamic) →
      (b = ObjectLayerImpl.kStatic ∨ b = ObjectLayerImpl.kDynamic) →
      a ≠ b →
      (BroadPhaseLayerInterfaceImpl.GetBroadPhaseLayer a).value ≠
        (BroadPhaseLayerInterfaceImpl.GetBroadPhaseLayer b).value) ∧
    BroadPhaseLayerInterfaceImpl.GetNumBroadPhaseLayers = 2 ∧
    (∀ bp : BroadPhaseLayer,
      bp_value bp < BroadPhaseLayerInterfaceImpl.GetNumBroadPhaseLayers →
      ∃ a : ObjectLayer,
        (a = ObjectLayerImpl.kStatic ∨ a = ObjectLayerImpl.kDynamic) ∧
        (BroadPhaseLayerInterfaceImpl.GetBroadPhaseLayer a).value = bp) := by
  refine ⟨rfl, rfl, ?_, rfl, ?_⟩
  · intro a b ha hb hab
    rcases ha with rfl | rfl <;> rcases hb with rfl | rfl <;> simp_all <;> decide
  · intro bp hbp
    have h2 : bp < 2 := hbp
    interval_cases bp
    · exact ⟨ObjectLayerImpl.kStatic, Or.inl rfl, rfl⟩
    · exact ⟨ObjectLayerImpl.kDynamic, Or.inr rfl, rfl⟩

/-! ## The static scene meshes -/

set_option maxRecDepth 100000 in
/-- C9. `test_vec_mesh_shape_settings` returns exactly three meshes, of 4, 32
and 122 vertices, and in each of them every triangle has its three indices
below the number of vertices of that mesh and carries material tag 0. -/
theorem test_vec_mesh_shape_settings_well_formed :
    test_vec_mesh_shape_settings.length = 3 ∧
    test_vec_mesh_shape_settings.map (fun m => m.list_vertex.length) = [4, 32, 122] ∧
    (∀ m ∈ test_vec_mesh_shape_settings, ∀ t ∈ m.list_indexed_triangle,
      t.i0 < m.list_vertex.length ∧ t.i1 < m.list_vertex.length ∧
      t.i2 < m.list_vertex.length ∧ t.mMaterialIndex = 0) := by
  refine ⟨rfl, by decide, ?_⟩
  decide

/-! ## The simulation loop -/

section LoopLemmas
variable {σ : Type}

theorem drive_eng (E : Engine σ) (w : World σ) (dt : F32) :
    (test_character_set_linear_velocity E w dt).eng = driveEng E w.eng dt := by
  unfold driveEng test_character_set_linear_velocity
  by_cases hg : E.GetGroundState w.eng = EGroundState.OnGround <;>
    simp [hg, World.exec, World.record]

theorem drive_trace (E : Engine σ) (w : World σ) (dt : F32) :
    (test_character_set_linear_velocity E w dt).trace =
      w.trace ++ driveEvents E w.eng dt := by
  unfold driveEvents test_character_set_linear_velocity
  by_cases hg : E.GetGroundState w.eng = EGroundState.OnGround <;>
    simp [hg, World.exec, World.record]

/-- The events of one iteration, in order. -/
theorem iterEvents_eq (E : Engine σ) (st : LoopState σ) :
    iterEvents E st =
      [Event.GetPosition (E.GetPosition st.w.eng),
       Event.Print (stepLine (stepMarker ((E.GetPosition st.w.eng).sub st.p_last).Length)
         (E.GetPosition st.w.eng) ((E.GetPosition st.w.eng).sub st.p_last))] ++
      driveEvents E st.w.eng test_delta_time ++
      [Event.GetGravity (E.GetGravity (driveEng E st.w.eng test_delta_time)),
       Event.cmd (Cmd.ExtendedUpdate test_delta_time
         (E.GetGravity (driveEng E st.w.eng test_delta_time))
         test_extended_update_settings ObjectLayerImpl.kDynamic ObjectLayerImpl.kDynamic),
       Event.cmd (Cmd.Update test_delta_time kCollisionSteps)] := by
  simp [iterEvents, loopBody, World.exec, World.record, drive_trace, drive_eng]

theorem loopBody_trace (E : Engine σ) (st : LoopState σ) :
    (loopBody E st).w.trace = st.w.trace ++ iterEvents E st := by
  rw [iterEvents_eq]
  simp [loopBody, World.exec, World.record, drive_trace, drive_eng]

theorem loopBody_eng (E : Engine σ) (st : LoopState σ) :
    (loopBody E st).w.eng =
      E.exec (Cmd.Update test_delta_time kCollisionSteps)
        (E.exec (Cmd.ExtendedUpdate test_delta_time
            (E.GetGravity (driveEng E st.w.eng test_delta_time))
            test_extended_update_settings ObjectLayerImpl.kDynamic ObjectLayerImpl.kDynamic)
          (driveEng E st.w.eng test_delta_time)) := by
  simp [loopBody, World.exec, World.record, drive_eng]

theorem loopBody_p_last (E : Engine σ) (st : LoopState σ) :
    (loopBody E st).p_last = E.GetPosition st.w.eng := rfl

theorem loopBody_max (E : Engine σ) (st : LoopState σ) :
    (loopBody E st).max_length_delta =
      if (((E.GetPosition st.w.eng).sub st.p_last).Length).gt st.max_length_delta then
        ((E.GetPosition st.w.eng).sub st.p_last).Length
      else st.max_length_delta := rfl

/-- The `for` loop entered at `num_steps` runs its body `kMaxNumSteps - num_steps`
times. -/
theorem simulationLoop_eq (E : Engine σ) (n : Nat) (st : LoopState σ) :
    simulationLoop E n st = (loopBody E)^[kMaxNumSteps - n] st := by
  generalize hk : kMaxNumSteps - n = k
  induction k generalizing n st with
  | zero =>
    rw [simulationLoop]
    have : ¬ n < kMaxNumSteps := by omega
    simp [this]
  | succ k ih =>
    rw [simulationLoop]
    have : n < kMaxNumSteps := by omega
    simp only [this, if_true, Function.iterate_succ, Function.comp]
    exact ih (n + 1) (loopBody E st) (by omega)

theorem iterate_trace (E : Engine σ) (n : Nat) (st : LoopState σ) :
    ((loopBody E)^[n] st).w.trace =
      st.w.trace ++ (List.range n).flatMap (fun i => iterEvents E ((loopBody E)^[i] st)) := by
  induction n with
  | zero => simp
  | succ k ih =>
    rw [Function.iterate_succ_apply', loopBody_trace, ih, List.range_succ]
    simp [List.flatMap_append]

end LoopLemmas

/-! ## The trace of `main` -/

section TraceLemmas
variable {σ : Type}

theorem driveEvents_eq (E : Engine σ) (eng : σ) (dt : F32) :
    driveEvents E eng dt =
      Event.GetGroundState (E.GetGroundState eng) ::
        ((if E.GetGroundState eng = EGroundState.OnGround then []
          else [Event.GetLinearVelocity (E.GetLinearVelocity eng)]) ++
        [Event.cmd (Cmd.SetLinearVelocity
          (Vec3.add
            (Vec3.SetZ ⟨cast 0xc0a53844, cast 0x40439dba, lit_0_0f⟩
              (if E.GetGroundState eng = EGroundState.OnGround then lit_5_0f
               else (E.GetLinearVelocity eng).GetZ))
            (Vec3.mulScalar ⟨lit_0_0f, lit_0_0f, lit_m14_0f⟩ dt)))]) := by
  unfold driveEvents test_character_set_linear_velocity
  by_cases hg : E.GetGroundState eng = EGroundState.OnGround <;>
    simp [hg, World.exec, World.record]

theorem printed_append (a b : List Event) : printed (a ++ b) = printed a ++ printed b := by
  simp [printed, List.filterMap_append]

theorem printed_driveEvents (E : Engine σ) (eng : σ) (dt : F32) :
    printed (driveEvents E eng dt) = [] := by
  rw [driveEvents_eq]
  by_cases hg : E.GetGroundState eng = EGroundState.OnGround <;> simp [hg, printed]

theorem printed_iterEvents (E : Engine σ) (st : LoopState σ) :
    printed (iterEvents E st) =
      [stepLine (stepMarker ((E.GetPosition st.w.eng).sub st.p_last).Length)
        (E.GetPosition st.w.eng) ((E.GetPosition st.w.eng).sub st.p_last)] := by
  rw [iterEvents_eq, printed_append, printed_append, printed_driveEvents]
  simp [printed]

theorem runSimulation_eq (E : Engine σ) (w : World σ) :
    runSimulation E w =
      (stateAt E w kMaxNumSteps).w.record
        (Event.Print (summaryLine (stateAt E w kMaxNumSteps).max_length_delta)) := by
  simp only [runSimulation, simulationLoop_eq]
  rfl

theorem runSimulation_trace (E : Engine σ) (w : World σ) :
    (runSimulation E w).trace =
      w.trace ++ Event.GetPosition (E.GetPosition w.eng) ::
        ((List.range kMaxNumSteps).flatMap (fun i => iterEvents E (stateAt E w i)) ++
         [Event.Print (summaryLine (stateAt E w kMaxNumSteps).max_length_delta)]) := by
  rw [runSimulation_eq]
  simp only [World.record]
  have ht : (stateAt E w kMaxNumSteps).w.trace = _ := iterate_trace E kMaxNumSteps (loopEntry E w)
  rw [ht]
  simp [loopEntry, World.record, stateAt]

theorem printed_flatMap_iterEvents (E : Engine σ) (w : World σ) (n : Nat) :
    printed ((List.range n).flatMap (fun i => iterEvents E (stateAt E w i))) =
      (List.range n).map (fun i =>
        stepLine (stepMarker (lengthDeltaAt E w i)) (positionAt E w i) (deltaAt E w i)) := by
  induction n with
  | zero => simp [printed]
  | succ k ih =>
    rw [List.range_succ, List.flatMap_append, printed_append, ih, List.map_append]
    simp [printed_iterEvents, lengthDeltaAt, deltaAt, positionAt]

theorem printed_runSimulation (E : Engine σ) (w : World σ) :
    printed (runSimulation E w).trace =
      printed w.trace ++
        ((List.range kMaxNumSteps).map (fun i =>
          stepLine (stepMarker (lengthDeltaAt E w i)) (positionAt E w i) (deltaAt E w i)) ++
         [summaryLine (stateAt E w kMaxNumSteps).max_length_delta]) := by
  rw [runSimulation_trace, printed_append]
  have : ∀ (e : Event) (l : List Event), e :: l = [e] ++ l := fun _ _ => rfl
  rw [this, printed_append, printed_append, printed_flatMap_iterEvents]
  simp [printed]

theorem setup_trace (E : Engine σ) (s : σ) :
    ∀ e ∈ (setup E s).1.trace, e.inSimulation = false := by
  simp [setup, createPhysicsSystem, setupController, addBodies, test_vec_mesh_shape_settings,
    World.exec, Event.inSimulation, or_imp, forall_and]

theorem removeBodies_trace (E : Engine σ) (ids : List BodyID) (w : World σ) :
    (removeBodies E ids w).trace =
      w.trace ++ ids.flatMap (fun id =>
        [Event.cmd (Cmd.RemoveBody id), Event.cmd (Cmd.DestroyBody id)]) := by
  induction ids generalizing w with
  | nil => simp [removeBodies]
  | cons id rest ih => simp [removeBodies, ih, World.exec]

/-- The trace of `main`: set-up, the first read of the position, the events of
the 100 iterations, the summary, tear-down. -/
theorem main_trace (E : Engine σ) (s : σ) :
    (main E s).trace =
      (setup E s).1.trace ++ Event.GetPosition (E.GetPosition (setup E s).1.eng) ::
        ((List.range kMaxNumSteps).flatMap
            (fun i => iterEvents E (stateAt E (setup E s).1 i)) ++
         [Event.Print (summaryLine (stateAt E (setup E s).1 kMaxNumSteps).max_length_delta)]) ++
        ((setup E s).2.flatMap (fun id =>
            [Event.cmd (Cmd.RemoveBody id), Event.cmd (Cmd.DestroyBody id)]) ++
         [Event.cmd Cmd.UnregisterTypes, Event.cmd Cmd.DeleteFactory]) := by
  simp only [main, World.exec, removeBodies_trace, runSimulation_trace]
  simp

end TraceLemmas

/-! ## What `main` prints and how often it calls the engine -/

section OutputTheorems
variable {σ : Type}

theorem printed_eq_nil_of_not_inSimulation (t : List Event)
    (h : ∀ e ∈ t, e.inSimulation = false) : printed t = [] := by
  induction t with
  | nil => rfl
  | cons e rest ih =>
    have he := h e (List.mem_cons_self _ _)
    have hr := ih (fun x hx => h x (List.mem_cons_of_mem _ hx))
    cases e <;> simp_all [printed, Event.inSimulation]

theorem countP_eq_zero_of_not_inSimulation (p : Event → Bool) (t : List Event)
    (hp : ∀ e, p e = true → e.inSimulation = true)
    (h : ∀ e ∈ t, e.inSimulation = false) : t.countP p = 0 := by
  rw [List.countP_eq_zero]
  intro e he hpe
  have h1 := hp e hpe
  have h2 := h e he
  simp [h1] at h2

theorem teardown_trace (ids : List BodyID) :
    ∀ e ∈ ids.flatMap (fun id => [Event.cmd (Cmd.RemoveBody id), Event.cmd (Cmd.DestroyBody id)]) ++
        [Event.cmd Cmd.UnregisterTypes, Event.cmd Cmd.DeleteFactory],
      e.inSimulation = false := by
  intro e he
  simp only [List.mem_append, List.mem_flatMap, List.mem_cons, List.mem_singleton,
    List.not_mem_nil, or_false] at he
  rcases he with ⟨id, _, rfl | rfl⟩ | rfl | rfl <;> rfl

/-- What `main` prints: one step line per iteration, then the summary. -/
theorem printed_main (E : Engine σ) (s : σ) :
    printed (main E s).trace =
      (List.range kMaxNumSteps).map (fun i =>
          stepLine (stepMarker (lengthDeltaAt E (setup E s).1 i))
            (positionAt E (setup E s).1 i) (deltaAt E (setup E s).1 i)) ++
        [summaryLine (stateAt E (setup E s).1 kMaxNumSteps).max_length_delta] := by
  have h1 := printed_eq_nil_of_not_inSimulation _ (setup_trace E s)
  have h2 := printed_eq_nil_of_not_inSimulation _ (teardown_trace (setup E s).2)
  have h3 := printed_runSimulation E (setup E s).1
  rw [runSimulation_trace] at h3
  rw [main_trace, printed_append, h2, List.append_nil, h3, h1, List.nil_append]

theorem countP_flatMap_iterEvents (p : Event → Bool) (E : Engine σ) (w : World σ)
    (hp : ∀ st : LoopState σ, (iterEvents E st).countP p = 1) (n : Nat) :
    ((List.range n).flatMap (fun i => iterEvents E (stateAt E w i))).countP p = n := by
  induction n with
  | zero => simp
  | succ k ih =>
    rw [List.range_succ, List.flatMap_append, List.countP_append, ih]
    simp [hp]

theorem countP_main (p : Event → Bool) (E : Engine σ) (s : σ)
    (hp : ∀ e, p e = true → e.inSimulation = true)
    (hpos : ∀ v, p (Event.GetPosition v) = false)
    (hprint : ∀ l, p (Event.Print l) = false)
    (hiter : ∀ st : LoopState σ, (iterEvents E st).countP p = 1) :
    (main E s).trace.countP p = kMaxNumSteps := by
  have h1 := countP_eq_zero_of_not_inSimulation p _ hp (setup_trace E s)
  have h2 := countP_eq_zero_of_not_inSimulation p _ hp (teardown_trace (setup E s).2)
  have h3 := countP_flatMap_iterEvents p E (setup E s).1 hiter kMaxNumSteps
  rw [main_trace, List.countP_append, List.countP_append, h1, h2, List.countP_cons,
    List.countP_append, h3]
  simp [hpos, hprint]

theorem countP_iterEvents_isGetGroundState (E : Engine σ) (st : LoopState σ) :
    (iterEvents E st).countP Event.isGetGroundState = 1 := by
  rw [iterEvents_eq, driveEvents_eq]
  by_cases hg : E.GetGroundState st.w.eng = EGroundState.OnGround <;>
    simp [hg, List.countP_cons, Event.isGetGroundState]

theorem countP_iterEvents_isSetLinearVelocity (E : Engine σ) (st : LoopState σ) :
    (iterEvents E st).countP Event.isSetLinearVelocity = 1 := by
  rw [iterEvents_eq, driveEvents_eq]
  by_cases hg : E.GetGroundState st.w.eng = EGroundState.OnGround <;>
    simp [hg, List.countP_cons, Event.isSetLinearVelocity]

theorem countP_iterEvents_isExtendedUpdate (E : Engine σ) (st : LoopState σ) :
    (iterEvents E st).countP Event.isExtendedUpdate = 1 := by
  rw [iterEvents_eq, driveEvents_eq]
  by_cases hg : E.GetGroundState st.w.eng = EGroundState.OnGround <;>
    simp [hg, List.countP_cons, Event.isExtendedUpdate]

theorem countP_iterEvents_isUpdate (E : Engine σ) (st : LoopState σ) :
    (iterEvents E st).countP Event.isUpdate = 1 := by
  rw [iterEvents_eq, driveEvents_eq]
  by_cases hg : E.GetGroundState st.w.eng = EGroundState.OnGround <;>
    simp [hg, List.countP_cons, Event.isUpdate]

theorem countP_iterEvents_isUpdateOneStep (E : Engine σ) (st : LoopState σ) :
    (iterEvents E st).countP Event.isUpdateOneStep = 1 := by
  rw [iterEvents_eq, driveEvents_eq]
  by_cases hg : E.GetGroundState st.w.eng = EGroundState.OnGround <;>
    simp [hg, List.countP_cons, Event.isUpdateOneStep, kCollisionSteps]

/-- C8. Whatever the engine answers, the loop of `main` runs its body exactly
`kMaxNumSteps = 100` times: the trace of `main` holds exactly 100 reads of the
ground state, 100 `SetLinearVelocity` calls, 100 `ExtendedUpdate` calls and 100
`PhysicsSystem::Update` calls, each of these with one collision step, and the
program prints exactly 100 step lines followed by the one summary statement
(an empty line and the `max delta` line). -/
theorem main_runs_hundred_steps (E : Engine σ) (s : σ) :
    (∀ st : LoopState σ, simulationLoop E 0 st = (loopBody E)^[100] st) ∧
    (main E s).trace.countP Event.isGetGroundState = 100 ∧
    (main E s).trace.countP Event.isSetLinearVelocity = 100 ∧
    (main E s).trace.countP Event.isExtendedUpdate = 100 ∧
    (main E s).trace.countP Event.isUpdate = 100 ∧
    (main E s).trace.countP Event.isUpdateOneStep = 100 ∧
    ∃ (lines : List (List Tok)) (m : F32),
      printed (main E s).trace = lines ++ [summaryLine m] ∧
      lines.length = 100 ∧
      ∀ l ∈ lines, ∃ pfx p d, l = stepLine pfx p d := by
  refine ⟨fun st => simulationLoop_eq E 0 st, ?_, ?_, ?_, ?_, ?_, ?_⟩
  · exact countP_main _ E s (by intro e he; cases e <;> simp_all [Event.isGetGroundState, Event.inSimulation])
      (fun _ => rfl) (fun _ => rfl) (countP_iterEvents_isGetGroundState E)
  · exact countP_main _ E s
      (by
        intro e he
        cases e with
        | cmd c => cases c <;> simp_all [Event.isSetLinearVelocity, Event.inSimulation]
        | _ => simp_all [Event.isSetLinearVelocity])
      (fun _ => rfl) (fun _ => rfl) (countP_iterEvents_isSetLinearVelocity E)
  · exact countP_main _ E s
      (by
        intro e he
        cases e with
        | cmd c => cases c <;> simp_all [Event.isExtendedUpdate, Event.inSimulation]
        | _ => simp_all [Event.isExtendedUpdate])
      (fun _ => rfl) (fun _ => rfl) (countP_iterEvents_isExtendedUpdate E)
  · exact countP_main _ E s
      (by
        intro e he
        cases e with
        | cmd c => cases c <;> simp_all [Event.isUpdate, Event.inSimulation]
        | _ => simp_all [Event.isUpdate])
      (fun _ => rfl) (fun _ => rfl) (countP_iterEvents_isUpdate E)
  · exact countP_main _ E s
      (by
        intro e he
        cases e with
        | cmd c => cases c <;> simp_all [Event.isUpdateOneStep, Event.inSimulation]
        | _ => simp_all [Event.isUpdateOneStep])
      (fun _ => rfl) (fun _ => rfl) (countP_iterEvents_isUpdateOneStep E)
  · refine ⟨_, _, printed_main E s, by simp [kMaxNumSteps], ?_⟩
    intro l hl
    simp only [List.mem_map] at hl
    obtain ⟨i, _, rfl⟩ := hl
    exact ⟨_, _, _, rfl⟩

end OutputTheorems

/-! ## Order of reading, printing and updating -/

section OrderTheorems
variable {σ : Type}

theorem stateAt_succ (E : Engine σ) (w : World σ) (k : Nat) :
    stateAt E w (k + 1) = loopBody E (stateAt E w k) := by
  simp only [stateAt, Function.iterate_succ_apply']

set_option maxRecDepth 1000000 in
set_option exponentiation.threshold 2000 in
/-- C7, as stated, fails. On the small engine whose 100th `Update` moves the
character by one unit: the displacement printed and tracked in the last
iteration (number 99) is zero, while the distance between the position read at
the start of that iteration and the position after that iteration's updates is
one; the reported maximum is zero, so the movement of the 100th update is
neither printed nor counted; and the run starts by reading the position twice
and printing before the controller is driven. -/
theorem displacement_of_same_iteration_counterexample :
    lengthDeltaAt (toyEngine 100 0) (setup (toyEngine 100 0) toyStart).1 99 = lit_0_0f ∧
    ((positionAt (toyEngine 100 0) (setup (toyEngine 100 0) toyStart).1 100).sub
      (positionAt (toyEngine 100 0) (setup (toyEngine 100 0) toyStart).1 99)).Length
        = lit_1_0f ∧
    (printed (main (toyEngine 100 0) toyStart).trace).getLast? = some (summaryLine lit_0_0f) ∧
    (((main (toyEngine 100 0) toyStart).trace.drop
        (setup (toyEngine 100 0) toyStart).1.trace.length).take 4 =
      [Event.GetPosition ⟨lit_0_0f, lit_0_0f, lit_0_0f⟩,
       Event.GetPosition ⟨lit_0_0f, lit_0_0f, lit_0_0f⟩,
       Event.Print (stepLine " " ⟨lit_0_0f, lit_0_0f, lit_0_0f⟩ ⟨lit_0_0f, lit_0_0f, lit_0_0f⟩),
       Event.GetGroundState EGroundState.OnGround]) := by
  refine ⟨by decide!, by decide!, ?_, ?_⟩
  · rw [printed_main, List.getLast?_append]
    have h : (stateAt (toyEngine 100 0) (setup (toyEngine 100 0) toyStart).1
        kMaxNumSteps).max_length_delta = lit_0_0f := by decide!
    simp [h]
  · rw [main_trace, List.append_assoc, List.drop_left]
    have h : kMaxNumSteps = 99 + 1 := rfl
    rw [h, List.range_succ_eq_map]
    simp only [List.flatMap_cons, List.take, iterEvents_eq, driveEvents_eq]
    decide

/-- C7, amended. In each of the 100 iterations of the loop of `main` the order
is: read the current position, print the step line for the displacement from
the position read by the previous iteration (in the first iteration, from the
position read just before the loop, with no update in between) and track that
displacement in the maximum, then drive the controller, read the gravity, run
`ExtendedUpdate` and advance the world with `Update`. So the displacement
printed and tracked in iteration `k + 1` is the movement made by the updates of
iteration `k`; after the last `Update` only the summary is printed, so the
movement of the 100th update is neither printed nor tracked. -/
theorem main_iteration_order (E : Engine σ) (s : σ) :
    (main E s).trace =
      (setup E s).1.trace ++ Event.GetPosition (E.GetPosition (setup E s).1.eng) ::
        ((List.range 100).flatMap (fun i =>
            [Event.GetPosition (positionAt E (setup E s).1 i),
             Event.Print (stepLine (stepMarker (lengthDeltaAt E (setup E s).1 i))
               (positionAt E (setup E s).1 i) (deltaAt E (setup E s).1 i))] ++
            driveEvents E (stateAt E (setup E s).1 i).w.eng test_delta_time ++
            [Event.GetGravity
               (E.GetGravity (driveEng E (stateAt E (setup E s).1 i).w.eng test_delta_time)),
             Event.cmd (Cmd.ExtendedUpdate test_delta_time
               (E.GetGravity (driveEng E (stateAt E (setup E s).1 i).w.eng test_delta_time))
               test_extended_update_settings ObjectLayerImpl.kDynamic ObjectLayerImpl.kDynamic),
             Event.cmd (Cmd.Update test_delta_time kCollisionSteps)]) ++
         [Event.Print (summaryLine (stateAt E (setup E s).1 100).max_length_delta)]) ++
        ((setup E s).2.flatMap (fun id =>
            [Event.cmd (Cmd.RemoveBody id), Event.cmd (Cmd.DestroyBody id)]) ++
         [Event.cmd Cmd.UnregisterTypes, Event.cmd Cmd.DeleteFactory]) ∧
    (stateAt E (setup E s).1 0).w.eng = (setup E s).1.eng ∧
    deltaAt E (setup E s).1 0 =
      (positionAt E (setup E s).1 0).sub (positionAt E (setup E s).1 0) ∧
    (∀ k, deltaAt E (setup E s).1 (k + 1) =
      (positionAt E (setup E s).1 (k + 1)).sub (positionAt E (setup E s).1 k)) ∧
    (∀ k, (stateAt E (setup E s).1 (k + 1)).w.eng =
      E.exec (Cmd.Update test_delta_time kCollisionSteps)
        (E.exec (Cmd.ExtendedUpdate test_delta_time
            (E.GetGravity (driveEng E (stateAt E (setup E s).1 k).w.eng test_delta_time))
            test_extended_update_settings ObjectLayerImpl.kDynamic ObjectLayerImpl.kDynamic)
          (driveEng E (stateAt E (setup E s).1 k).w.eng test_delta_time))) ∧
    (stateAt E (setup E s).1 0).max_length_delta = lit_0_0f ∧
    (∀ k, (stateAt E (setup E s).1 (k + 1)).max_length_delta =
      if (lengthDeltaAt E (setup E s).1 k).gt (stateAt E (setup E s).1 k).max_length_delta
      then lengthDeltaAt E (setup E s).1 k
      else (stateAt E (setup E s).1 k).max_length_delta) := by
  refine ⟨?_, rfl, rfl, ?_, ?_, rfl, ?_⟩
  · rw [main_trace]
    simp only [iterEvents_eq, lengthDeltaAt, deltaAt, positionAt, kMaxNumSteps]
  · intro k
    simp only [deltaAt, positionAt, stateAt_succ, loopBody_p_last]
  · intro k
    rw [stateAt_succ, loopBody_eng]
  · intro k
    rw [stateAt_succ, loopBody_max]
    rfl

end OrderTheorems

/-! ## Order and signed zeros of binary32 values -/

namespace F32

theorem ge_of_gt {x y : F32} (h : x.gt y = true) : x.ge y = true := by
  simp only [gt, ge, Bool.and_eq_true, Bool.not_eq_true', decide_eq_true_eq] at *
  exact ⟨h.1, le_of_lt h.2⟩

theorem ge_of_not_gt {x y : F32} (hx : x.isNaN = false) (hy : y.isNaN = false)
    (h : x.gt y = false) : y.ge x = true := by
  simp only [gt, ge, hx, hy, Bool.not_false, Bool.true_and, decide_eq_false_iff_not,
    decide_eq_true_eq, not_lt] at *
  exact h

theorem ge_trans {x y z : F32} (h1 : x.ge y = true) (h2 : y.ge z = true) : x.ge z = true := by
  simp only [ge, Bool.and_eq_true, Bool.not_eq_true', decide_eq_true_eq] at *
  exact ⟨⟨h1.1.1, h2.1.2⟩, le_trans h2.2 h1.2⟩

theorem ge_refl {x : F32} (hx : x.isNaN = false) : x.ge x = true := by
  simp [ge, hx]

theorem sign_mk (neg : Bool) (b : Nat) (hb : b < 255 * 2 ^ 23) :
    (⟨signBit neg + b⟩ : F32).sign = neg := by
  have hb' : b < 2139095040 := by norm_num at hb; exact hb
  cases neg
  · simp only [sign, signBit, Bool.false_eq_true, if_false, decide_eq_false_iff_not]
    norm_num
    omega
  · simp only [sign, signBit, if_true, decide_eq_true_eq]
    norm_num
    omega

theorem expo_mk (neg : Bool) (b : Nat) (hb : b < 255 * 2 ^ 23) :
    (⟨signBit neg + b⟩ : F32).expo = b / 2 ^ 23 := by
  have hb' : b < 2139095040 := by norm_num at hb; exact hb
  cases neg
  · simp only [expo, signBit, Bool.false_eq_true, if_false]
    norm_num
    omega
  · simp only [expo, signBit, if_true]
    norm_num
    omega

theorem frac_mk (neg : Bool) (b : Nat) :
    (⟨signBit neg + b⟩ : F32).frac = b % 2 ^ 23 := by
  cases neg
  · simp only [frac, signBit, Bool.false_eq_true, if_false]
    norm_num
  · simp only [frac, signBit, if_true]
    norm_num
    omega

theorem mag_mk_pos (neg : Bool) (b : Nat) (hb0 : 0 < b) (hb : b < 255 * 2 ^ 23) :
    0 < (⟨signBit neg + b⟩ : F32).mag := by
  unfold mag
  rw [expo_mk neg b hb, frac_mk]
  by_cases h : b / 2 ^ 23 = 0
  · rw [if_pos h]
    have : b < 2 ^ 23 := by
      by_contra hc
      have := Nat.div_pos (Nat.le_of_not_lt hc) (by norm_num : 0 < 2 ^ 23)
      omega
    rw [Nat.mod_eq_of_lt this]
    exact hb0
  · rw [if_neg h]
    positivity

theorem pack_cases (neg : Bool) (b : Nat) :
    pack neg b = inf neg ∨ (b < 255 * 2 ^ 23 ∧ pack neg b = ⟨signBit neg + b⟩) := by
  unfold pack
  split
  · exact Or.inl rfl
  · rename_i h
    exact Or.inr ⟨Nat.lt_of_not_ge h, rfl⟩

theorem le_roundHalfEven (n sh : Nat) : n / 2 ^ sh ≤ roundHalfEven n sh := by
  unfold roundHalfEven
  simp only []
  split <;> omega

theorem roundPack_cases (neg : Bool) (n s : Nat) :
    roundPack neg n s = zero neg ∨ roundPack neg n s = inf neg ∨
      ∃ b, b < 255 * 2 ^ 23 ∧ roundPack neg n s = ⟨signBit neg + b⟩ := by
  unfold roundPack
  by_cases hn : n = 0
  · simp [hn]
  · simp only [hn, if_false]
    rcases pack_cases neg ((max (ilog2 n + 1 - 24) (s - 149) + 149 - s) * 2 ^ 23 +
        roundHalfEven n (max (ilog2 n + 1 - 24) (s - 149))) with h | ⟨hb, h⟩
    · exact Or.inr (Or.inl h)
    · exact Or.inr (Or.inr ⟨_, hb, h⟩)

theorem roundPack_pos (neg : Bool) (n s : Nat) (hn : n ≠ 0) (hs : s ≤ 149) :
    roundPack neg n s = inf neg ∨
      ∃ b, 0 < b ∧ b < 255 * 2 ^ 23 ∧ roundPack neg n s = ⟨signBit neg + b⟩ := by
  unfold roundPack
  simp only [hn, if_false]
  generalize max (ilog2 n + 1 - 24) (s - 149) = sh
  rcases pack_cases neg ((sh + 149 - s) * 2 ^ 23 + roundHalfEven n sh) with h | ⟨hb, h⟩
  · exact Or.inl h
  · refine Or.inr ⟨_, ?_, hb, h⟩
    by_cases hsh : sh = 0
    · subst hsh
      have hq := le_roundHalfEven n 0
      simp only [pow_zero, Nat.div_one] at hq
      omega
    · have h1 : 1 ≤ sh + 149 - s := by omega
      have h2 : 2 ^ 23 ≤ (sh + 149 - s) * 2 ^ 23 := Nat.le_mul_of_pos_left _ h1
      have h3 : 0 < 2 ^ 23 := by norm_num
      omega

theorem isNaN_nan : nan.isNaN = true := by decide

theorem isNaN_inf (neg : Bool) : (inf neg).isNaN = false := by cases neg <;> decide

theorem isNaN_zero (neg : Bool) : (zero neg).isNaN = false := by cases neg <;> decide

theorem sign_nan : nan.sign = false := by decide

theorem sign_inf (neg : Bool) : (inf neg).sign = neg := by cases neg <;> decide

theorem sign_zero (neg : Bool) : (zero neg).sign = neg := by cases neg <;> decide

theorem gt_inf_zero : (inf false).gt lit_0_0f = true := by decide

theorem sign_roundPack (neg : Bool) (n s : Nat) : (roundPack neg n s).sign = neg := by
  rcases roundPack_cases neg n s with h | h | ⟨b, hb, h⟩
  · rw [h, sign_zero]
  · rw [h, sign_inf]
  · rw [h, sign_mk neg b hb]

theorem key_lit_zero : lit_0_0f.key = 0 := by decide

theorem isNaN_lit_zero : lit_0_0f.isNaN = false := by decide

/-- A non-negative result of rounding a non-zero magnitude is above zero,
unless it is a NaN. -/
theorem gt_zero_of_roundPack (n s : Nat) (hn : n ≠ 0) (hs : s ≤ 149)
    (hnan : (roundPack false n s).isNaN = false) :
    (roundPack false n s).gt lit_0_0f = true := by
  rcases roundPack_pos false n s hn hs with h | ⟨b, hb0, hb, h⟩
  · rw [h]; exact gt_inf_zero
  · have hs' := sign_mk false b hb
    have hm := mag_mk_pos false b hb0 hb
    rw [h] at hnan ⊢
    have hk : (⟨signBit false + b⟩ : F32).key = ((⟨signBit false + b⟩ : F32).mag : Int) := by
      simp [key, hs']
    simp only [gt, hnan, isNaN_lit_zero, key_lit_zero, hk, Bool.not_false, Bool.true_and,
      decide_eq_true_eq]
    exact_mod_cast hm

theorem mag_pos_of_isInf {x : F32} (h : x.isInf = true) : 0 < x.mag := by
  simp only [isInf, Bool.and_eq_true, decide_eq_true_eq] at h
  unfold mag
  rw [if_neg (by omega)]
  positivity

theorem mag_pos_of_isNaN {x : F32} (h : x.isNaN = true) : 0 < x.mag := by
  simp only [isNaN, Bool.and_eq_true, decide_eq_true_eq] at h
  unfold mag
  rw [if_neg (by omega)]
  positivity

theorem sign_mul_self (z : F32) : (mul z z).sign = false := by
  unfold mul
  split
  · exact sign_nan
  · split
    · exact sign_nan
    · split
      · rw [sign_inf]; simp
      · rw [sign_roundPack]; simp

/-- The sum of a value and a value without sign bit is never the negative
zero: if it is a zero, it is `+0`. -/
theorem add_eq_zero_of_isZero (a b : F32) (hb : b.sign = false)
    (hz : (add a b).isZero = true) : add a b = ⟨0⟩ := by
  unfold add at hz ⊢
  split at hz
  · exact absurd hz (by decide)
  · rename_i hnan
    split at hz
    · rename_i hai
      have hpos := mag_pos_of_isInf hai
      split at hz
      · exact absurd hz (by decide)
      · simp only [isZero, decide_eq_true_eq] at hz
        omega
    · rename_i hai
      split at hz
      · rename_i hbi
        have hpos := mag_pos_of_isInf hbi
        simp only [isZero, decide_eq_true_eq] at hz
        omega
      · rename_i hbi
        simp only [hnan, hai, hbi, if_false, Bool.false_eq_true] at hz ⊢
        split at hz
        · rename_i h0
          simp only [h0, if_true, hb, Bool.and_false]
          rfl
        · rename_i h0
          exfalso
          have hn : (a.key + b.key).natAbs ≠ 0 := by
            intro h; exact h0 (Int.natAbs_eq_zero.mp h)
          rcases roundPack_pos (decide (a.key + b.key < 0)) _ 149 hn (le_refl _) with
            h | ⟨c, hc0, hc, h⟩
          · rw [h] at hz
            have := mag_pos_of_isInf (x := inf (decide (a.key + b.key < 0)))
              (by cases decide (a.key + b.key < 0) <;> decide)
            simp only [isZero, decide_eq_true_eq] at hz
            omega
          · rw [h] at hz
            have := mag_mk_pos (decide (a.key + b.key < 0)) c hc0 hc
            simp only [isZero, decide_eq_true_eq] at hz
            omega

theorem gt_zero_of_mag_pos {x : F32} (hn : x.isNaN = false) (hs : x.sign = false)
    (hm : 0 < x.mag) : x.gt lit_0_0f = true := by
  have hk : x.key = (x.mag : Int) := by simp [key, hs]
  simp only [gt, hn, isNaN_lit_zero, key_lit_zero, hk, Bool.not_false, Bool.true_and,
    decide_eq_true_eq]
  exact_mod_cast hm

theorem roundPack_zero (neg : Bool) (s : Nat) : roundPack neg 0 s = zero neg := by
  simp [roundPack]

/-- A square root that is neither a NaN nor above zero is `+0`, provided a
zero argument is `+0`. -/
theorem sqrt_eq_zero_of_not_gt (x : F32) (hx : x.isZero = true → x = ⟨0⟩)
    (hn : (sqrt x).isNaN = false) (hg : (sqrt x).gt lit_0_0f = false) :
    sqrt x = lit_0_0f := by
  unfold sqrt at hn hg ⊢
  split at hn
  · rw [isNaN_nan] at hn; exact absurd hn (by decide)
  · rename_i hxn
    simp only [hxn, if_false, Bool.false_eq_true] at hg ⊢
    split at hn
    · rename_i hz
      simp only [hz, if_true]
      exact hx hz
    · rename_i hz
      simp only [hz, if_false, Bool.false_eq_true] at hg ⊢
      split at hn
      · rw [isNaN_nan] at hn; exact absurd hn (by decide)
      · rename_i hsg
        simp only [hsg, if_false, Bool.false_eq_true] at hg ⊢
        split at hn
        · rename_i hi
          simp only [hi, if_true] at hg
          have := gt_zero_of_mag_pos (by simpa using hxn) (by simpa using hsg)
            (mag_pos_of_isInf hi)
          rw [this] at hg
          exact absurd hg (by decide)
        · rename_i hi
          simp only [hi, if_false, Bool.false_eq_true] at hg ⊢
          by_cases h0 : 2 * isqrt (x.mag * 2 ^ 53) +
              (if isqrt (x.mag * 2 ^ 53) * isqrt (x.mag * 2 ^ 53) = x.mag * 2 ^ 53 then 0
               else 1) = 0
          · rw [h0, roundPack_zero]; rfl
          · have := gt_zero_of_roundPack _ 102 h0 (by norm_num) hn
            rw [this] at hg
            exact absurd hg (by decide)

end F32

theorem Vec3.Length_eq_zero_of_not_gt (v : Vec3) (hn : v.Length.isNaN = false)
    (hg : v.Length.gt lit_0_0f = false) : v.Length = lit_0_0f := by
  unfold Vec3.Length at *
  refine F32.sqrt_eq_zero_of_not_gt _ ?_ hn hg
  intro hz
  unfold Vec3.LengthSq at *
  exact F32.add_eq_zero_of_isZero _ _ (F32.sign_mul_self v.z) hz

/-! ## The positions the engine returned -/

section PositionsRead
variable {σ : Type}

theorem positionsRead_append (a b : List Event) :
    positionsRead (a ++ b) = positionsRead a ++ positionsRead b := by
  simp [positionsRead, List.filterMap_append]

theorem positionsRead_eq_nil_of_not_inSimulation (t : List Event)
    (h : ∀ e ∈ t, e.inSimulation = false) : positionsRead t = [] := by
  induction t with
  | nil => rfl
  | cons e rest ih =>
    have he := h e (List.mem_cons_self _ _)
    have hr := ih (fun x hx => h x (List.mem_cons_of_mem _ hx))
    cases e <;> simp_all [positionsRead, Event.inSimulation]

theorem positionsRead_driveEvents (E : Engine σ) (eng : σ) (dt : F32) :
    positionsRead (driveEvents E eng dt) = [] := by
  rw [driveEvents_eq]
  by_cases hg : E.GetGroundState eng = EGroundState.OnGround <;> simp [hg, positionsRead]

theorem positionsRead_iterEvents (E : Engine σ) (st : LoopState σ) :
    positionsRead (iterEvents E st) = [E.GetPosition st.w.eng] := by
  rw [iterEvents_eq, positionsRead_append, positionsRead_append, positionsRead_driveEvents]
  simp [positionsRead]

theorem positionsRead_flatMap_iterEvents (E : Engine σ) (w : World σ) (n : Nat) :
    positionsRead ((List.range n).flatMap (fun i => iterEvents E (stateAt E w i))) =
      (List.range n).map (positionAt E w) := by
  induction n with
  | zero => simp [positionsRead]
  | succ k ih =>
    rw [List.range_succ, List.flatMap_append, positionsRead_append, ih, List.map_append]
    simp [positionsRead_iterEvents, positionAt]

/-- The positions in the trace of `main`: the read before the loop, then the
read of each of the 100 iterations. -/
theorem positionsRead_main (E : Engine σ) (s : σ) :
    positionsRead (main E s).trace =
      E.GetPosition (setup E s).1.eng ::
        (List.range kMaxNumSteps).map (positionAt E (setup E s).1) := by
  have h1 := positionsRead_eq_nil_of_not_inSimulation _ (setup_trace E s)
  have h2 := positionsRead_eq_nil_of_not_inSimulation _ (teardown_trace (setup E s).2)
  have hc : ∀ (e : Event) (l : List Event), e :: l = [e] ++ l := fun _ _ => rfl
  rw [main_trace, positionsRead_append, positionsRead_append, h1, h2, hc, positionsRead_append,
    positionsRead_append, positionsRead_flatMap_iterEvents]
  simp [positionsRead]

theorem zipWith_sub_iterate (E : Engine σ) (n : Nat) :
    ∀ st : LoopState σ,
      List.zipWith Vec3.sub
          ((List.range n).map (fun i => E.GetPosition ((loopBody E)^[i] st).w.eng))
          (st.p_last :: (List.range n).map (fun i => E.GetPosition ((loopBody E)^[i] st).w.eng)) =
        (List.range n).map (fun i =>
          (E.GetPosition ((loopBody E)^[i] st).w.eng).sub ((loopBody E)^[i] st).p_last) := by
  induction n with
  | zero => intro st; rfl
  | succ k ih =>
    intro st
    rw [List.range_succ_eq_map]
    simp only [List.map_cons, List.map_map, Function.comp_def, Function.iterate_succ_apply,
      Function.iterate_zero, id_eq, List.zipWith_cons_cons]
    have := ih (loopBody E st)
    rw [loopBody_p_last] at this
    rw [this]

/-- The displacements between consecutive positions in the trace of `main` are
the values of `delta` in the 100 iterations. -/
theorem displacementsRead_main (E : Engine σ) (s : σ) :
    displacementsRead (main E s).trace =
      (List.range kMaxNumSteps).map (deltaAt E (setup E s).1) := by
  rw [displacementsRead, positionsRead_main, List.tail_cons]
  exact zipWith_sub_iterate E kMaxNumSteps (loopEntry E (setup E s).1)

theorem magnitudesRead_main (E : Engine σ) (s : σ) :
    magnitudesRead (main E s).trace =
      (List.range kMaxNumSteps).map (lengthDeltaAt E (setup E s).1) := by
  rw [magnitudesRead, displacementsRead_main, List.map_map]
  rfl

/-- The step lines of `main`, from the positions in its trace. -/
theorem stepLines_main (E : Engine σ) (s : σ) :
    List.zipWith (fun p d => stepLine (stepMarker d.Length) p d)
        (positionsRead (main E s).trace).tail (displacementsRead (main E s).trace) =
      (List.range kMaxNumSteps).map (fun i =>
        stepLine (stepMarker (lengthDeltaAt E (setup E s).1 i))
          (positionAt E (setup E s).1 i) (deltaAt E (setup E s).1 i)) := by
  rw [displacementsRead_main, positionsRead_main, List.tail_cons, List.zipWith_map]
  simp [List.zipWith_same, lengthDeltaAt]

end PositionsRead

/-! ## The reported maximum -/

section MaximumTheorems
variable {σ : Type}

/-- After `n` iterations `max_length_delta` is not a NaN, is at least every
magnitude seen, and is `0.0f` or one of them. -/
theorem max_invariant (E : Engine σ) (w : World σ) (n : Nat)
    (h : ∀ i, i < n → (lengthDeltaAt E w i).isNaN = false) :
    (stateAt E w n).max_length_delta.isNaN = false ∧
    (∀ i, i < n → (stateAt E w n).max_length_delta.ge (lengthDeltaAt E w i) = true) ∧
    ((stateAt E w n).max_length_delta = lit_0_0f ∨
      ∃ i, i < n ∧ (stateAt E w n).max_length_delta = lengthDeltaAt E w i) := by
  induction n with
  | zero =>
    refine ⟨F32.isNaN_lit_zero, ?_, Or.inl rfl⟩
    intro i hi
    omega
  | succ k ih =>
    obtain ⟨ih1, ih2, ih3⟩ := ih (fun i hi => h i (Nat.lt_succ_of_lt hi))
    have hk := h k (Nat.lt_succ_self k)
    have hstep : (stateAt E w (k + 1)).max_length_delta =
        if (lengthDeltaAt E w k).gt (stateAt E w k).max_length_delta then lengthDeltaAt E w k
        else (stateAt E w k).max_length_delta := by
      rw [stateAt_succ, loopBody_max]; rfl
    by_cases hg : (lengthDeltaAt E w k).gt (stateAt E w k).max_length_delta = true
    · rw [hstep, if_pos hg]
      refine ⟨hk, ?_, Or.inr ⟨k, Nat.lt_succ_self k, rfl⟩⟩
      intro i hi
      rcases Nat.lt_succ_iff_lt_or_eq.mp hi with hlt | rfl
      · exact F32.ge_trans (F32.ge_of_gt hg) (ih2 i hlt)
      · exact F32.ge_refl hk
    · rw [hstep, if_neg hg]
      refine ⟨ih1, ?_, ?_⟩
      · intro i hi
        rcases Nat.lt_succ_iff_lt_or_eq.mp hi with hlt | rfl
        · exact ih2 i hlt
        · exact F32.ge_of_not_gt hk ih1 (by simpa using hg)
      · rcases ih3 with h0 | ⟨i, hi, h0⟩
        · exact Or.inl h0
        · exact Or.inr ⟨i, Nat.lt_succ_of_lt hi, h0⟩

theorem not_gt_of_ge {x y : F32} (h : x.ge y = true) : y.gt x = false := by
  simp only [F32.gt, F32.ge, Bool.and_eq_true, Bool.not_eq_true', decide_eq_true_eq] at *
  simp [h.1.1, h.1.2, not_lt.mpr h.2]

/-- C6. For every engine, whatever positions it returns, as long as the
magnitudes of the displacements between consecutive positions it returned are
not NaNs: `main` reads 101 positions, one before the loop and one in each of
the 100 steps; the step lines show each position read in the loop with its
displacement from the position read before it; and the value on the
`max delta` line, which comes last, is the maximum of the 100 displacement
magnitudes: it is greater than or equal to each of them and it is one of them.
These magnitudes are the values of `length_delta` in the 100 iterations. -/
theorem max_delta_is_maximum (E : Engine σ) (s : σ)
    (h : ∀ l ∈ magnitudesRead (main E s).trace, l.isNaN = false) :
    (positionsRead (main E s).trace).length = 101 ∧
    (magnitudesRead (main E s).trace).length = 100 ∧
    magnitudesRead (main E s).trace =
      (List.range kMaxNumSteps).map (lengthDeltaAt E (setup E s).1) ∧
    ∃ m,
      printed (main E s).trace =
        List.zipWith (fun p d => stepLine (stepMarker d.Length) p d)
          (positionsRead (main E s).trace).tail (displacementsRead (main E s).trace) ++
        [summaryLine m] ∧
      (∀ l ∈ magnitudesRead (main E s).trace, m.ge l = true) ∧
      m ∈ magnitudesRead (main E s).trace := by
  have hi : ∀ i, i < kMaxNumSteps → (lengthDeltaAt E (setup E s).1 i).isNaN = false := by
    intro i hi
    apply h
    rw [magnitudesRead_main]
    exact List.mem_map.mpr ⟨i, List.mem_range.mpr hi, rfl⟩
  obtain ⟨_, h2, h3⟩ := max_invariant E (setup E s).1 kMaxNumSteps hi
  refine ⟨?_, ?_, magnitudesRead_main E s, ?_⟩
  · rw [positionsRead_main]
    simp [kMaxNumSteps]
  · rw [magnitudesRead_main]
    simp [kMaxNumSteps]
  refine ⟨(stateAt E (setup E s).1 kMaxNumSteps).max_length_delta, ?_, ?_, ?_⟩
  · rw [stepLines_main, printed_main]
  · intro l hl
    rw [magnitudesRead_main] at hl
    obtain ⟨i, hir, rfl⟩ := List.mem_map.mp hl
    exact h2 i (List.mem_range.mp hir)
  · rw [magnitudesRead_main]
    rcases h3 with h0 | ⟨i, hlt, h0⟩
    · have hpos : 0 < kMaxNumSteps := by decide
      have hng := not_gt_of_ge (h2 0 hpos)
      rw [h0] at hng
      refine List.mem_map.mpr ⟨0, List.mem_range.mpr hpos, ?_⟩
      rw [h0]
      exact Vec3.Length_eq_zero_of_not_gt _ (hi 0 hpos) hng
    · exact List.mem_map.mpr ⟨i, List.mem_range.mpr hlt, h0.symm⟩

set_option maxRecDepth 1000000 in
set_option exponentiation.threshold 2000 in
/-- C6 at a concrete input: the small engine that moves the character by one
unit in its fifth update; the `max delta` line shows `1.0f`. -/
theorem max_delta_is_maximum_witness :
    (∀ l ∈ magnitudesRead (main (toyEngine 5 0) toyStart).trace, l.isNaN = false) ∧
    (printed (main (toyEngine 5 0) toyStart).trace).getLast? = some (summaryLine lit_1_0f) ∧
    ((positionsRead (main (toyEngine 5 0) toyStart).trace).length = 101 ∧
    (magnitudesRead (main (toyEngine 5 0) toyStart).trace).length = 100 ∧
    magnitudesRead (main (toyEngine 5 0) toyStart).trace =
      (List.range kMaxNumSteps).map
        (lengthDeltaAt (toyEngine 5 0) (setup (toyEngine 5 0) toyStart).1) ∧
    ∃ m,
      printed (main (toyEngine 5 0) toyStart).trace =
        List.zipWith (fun p d => stepLine (stepMarker d.Length) p d)
          (positionsRead (main (toyEngine 5 0) toyStart).trace).tail
          (displacementsRead (main (toyEngine 5 0) toyStart).trace) ++
        [summaryLine m] ∧
      (∀ l ∈ magnitudesRead (main (toyEngine 5 0) toyStart).trace, m.ge l = true) ∧
      m ∈ magnitudesRead (main (toyEngine 5 0) toyStart).trace) :=
  have h : ∀ l ∈ magnitudesRead (main (toyEngine 5 0) toyStart).trace, l.isNaN = false := by
    rw [magnitudesRead_main]
    decide!
  have hlast : (printed (main (toyEngine 5 0) toyStart).trace).getLast? =
      some (summaryLine lit_1_0f) := by
    rw [printed_main, List.getLast?_append]
    have hm : (stateAt (toyEngine 5 0) (setup (toyEngine 5 0) toyStart).1
        kMaxNumSteps).max_length_delta = lit_1_0f := by decide!
    simp [hm]
  ⟨h, hlast, max_delta_is_maximum (toyEngine 5 0) toyStart h⟩

end MaximumTheorems

/-! ## Determinism -/

section DeterminismTheorems
variable {σ₁ σ₂ : Type}

theorem answers_append (a b : List Event) : answers (a ++ b) = answers a ++ answers b := by
  simp [answers, List.filterMap_append]

theorem answers_driveEvents {σ : Type} (E : Engine σ) (eng : σ) (dt : F32) :
    answers (driveEvents E eng dt) =
      Answer.groundState (E.GetGroundState eng) ::
        (if E.GetGroundState eng = EGroundState.OnGround then []
         else [Answer.velocity (E.GetLinearVelocity eng)]) := by
  rw [driveEvents_eq]
  by_cases hg : E.GetGroundState eng = EGroundState.OnGround <;>
    simp [hg, answers, Event.answer]

theorem answers_iterEvents {σ : Type} (E : Engine σ) (st : LoopState σ) :
    answers (iterEvents E st) =
      Answer.position (E.GetPosition st.w.eng) ::
        (Answer.groundState (E.GetGroundState st.w.eng) ::
          (if E.GetGroundState st.w.eng = EGroundState.OnGround then []
           else [Answer.velocity (E.GetLinearVelocity st.w.eng)]) ++
        [Answer.gravity (E.GetGravity (driveEng E st.w.eng test_delta_time))]) := by
  rw [iterEvents_eq, answers_append, answers_append, answers_driveEvents]
  simp [answers, Event.answer]

/-- Two iterations whose answers agree make the same events. -/
theorem iter_determined (E₁ : Engine σ₁) (E₂ : Engine σ₂) (st₁ : LoopState σ₁)
    (st₂ : LoopState σ₂) (t₁ t₂ : List Answer) (hp : st₁.p_last = st₂.p_last)
    (h : answers (iterEvents E₁ st₁) ++ t₁ = answers (iterEvents E₂ st₂) ++ t₂) :
    iterEvents E₁ st₁ = iterEvents E₂ st₂ ∧ t₁ = t₂ ∧
      E₁.GetPosition st₁.w.eng = E₂.GetPosition st₂.w.eng := by
  rw [answers_iterEvents, answers_iterEvents] at h
  rw [iterEvents_eq, iterEvents_eq, driveEvents_eq, driveEvents_eq]
  by_cases hg₁ : E₁.GetGroundState st₁.w.eng = EGroundState.OnGround <;>
    by_cases hg₂ : E₂.GetGroundState st₂.w.eng = EGroundState.OnGround <;>
    simp_all

theorem flatMap_range_succ_front {α : Type} (f : Nat → List α) (n : Nat) :
    (List.range (n + 1)).flatMap f = f 0 ++ (List.range n).flatMap (fun i => f (i + 1)) := by
  rw [List.range_succ_eq_map, List.flatMap_cons, List.flatMap_map]

/-- Two runs of `n` iterations whose answers agree make the same events. -/
theorem loop_determined (E₁ : Engine σ₁) (E₂ : Engine σ₂) (n : Nat) :
    ∀ (st₁ : LoopState σ₁) (st₂ : LoopState σ₂) (t₁ t₂ : List Answer),
      st₁.p_last = st₂.p_last → st₁.max_length_delta = st₂.max_length_delta →
      answers ((List.range n).flatMap (fun i => iterEvents E₁ ((loopBody E₁)^[i] st₁))) ++ t₁ =
        answers ((List.range n).flatMap (fun i => iterEvents E₂ ((loopBody E₂)^[i] st₂)))
          ++ t₂ →
      (List.range n).flatMap (fun i => iterEvents E₁ ((loopBody E₁)^[i] st₁)) =
        (List.range n).flatMap (fun i => iterEvents E₂ ((loopBody E₂)^[i] st₂)) ∧
      ((loopBody E₁)^[n] st₁).max_length_delta = ((loopBody E₂)^[n] st₂).max_length_delta ∧
      t₁ = t₂ := by
  induction n with
  | zero =>
    intro st₁ st₂ t₁ t₂ _ hm h
    exact ⟨rfl, hm, by simpa [answers] using h⟩
  | succ k ih =>
    intro st₁ st₂ t₁ t₂ hp hm h
    rw [flatMap_range_succ_front, flatMap_range_succ_front] at h ⊢
    simp only [Function.iterate_succ_apply, Function.iterate_zero, id_eq] at h ⊢
    rw [answers_append, answers_append, List.append_assoc, List.append_assoc] at h
    obtain ⟨h1, h2, h3⟩ := iter_determined E₁ E₂ st₁ st₂ _ _ hp h
    have hp' : (loopBody E₁ st₁).p_last = (loopBody E₂ st₂).p_last := by
      rw [loopBody_p_last, loopBody_p_last, h3]
    have hm' : (loopBody E₁ st₁).max_length_delta = (loopBody E₂ st₂).max_length_delta := by
      rw [loopBody_max, loopBody_max, h3, hp, hm]
    obtain ⟨h4, h5, h6⟩ := ih (loopBody E₁ st₁) (loopBody E₂ st₂) t₁ t₂ hp' hm' h2
    exact ⟨by rw [h1, h4], h5, h6⟩

theorem addBodies_ext {σ : Type} (E : Engine σ) (l : List MeshShapeSettings) :
    ∀ (w : World σ) (ids : List BodyID),
      ∃ evs, (addBodies E l (w, ids)).1.trace = w.trace ++ evs := by
  induction l with
  | nil => intro w ids; exact ⟨[], by simp [addBodies]⟩
  | cons m rest ih =>
    intro w ids
    simp only [addBodies]
    obtain ⟨evs, h⟩ := ih
      ⟨(E.CreateAndAddBody (E.CreateMeshShape m w.eng).1 ⟨lit_0_0f, lit_0_0f, lit_0_0f⟩
          ObjectLayerImpl.kStatic (E.CreateMeshShape m w.eng).2).2,
        w.trace ++ [Event.CreateMeshShape m (E.CreateMeshShape m w.eng).1] ++
          [Event.CreateAndAddBody (E.CreateMeshShape m w.eng).1 ⟨lit_0_0f, lit_0_0f, lit_0_0f⟩
            ObjectLayerImpl.kStatic
            (E.CreateAndAddBody (E.CreateMeshShape m w.eng).1 ⟨lit_0_0f, lit_0_0f, lit_0_0f⟩
              ObjectLayerImpl.kStatic (E.CreateMeshShape m w.eng).2).1]⟩
      (ids ++ [(E.CreateAndAddBody (E.CreateMeshShape m w.eng).1 ⟨lit_0_0f, lit_0_0f, lit_0_0f⟩
        ObjectLayerImpl.kStatic (E.CreateMeshShape m w.eng).2).1])
    rw [h]
    exact ⟨_, by rw [List.append_assoc, List.append_assoc]⟩

theorem addBodies_determined (E₁ : Engine σ₁) (E₂ : Engine σ₂) (l : List MeshShapeSettings) :
    ∀ (w₁ : World σ₁) (w₂ : World σ₂) (ids₁ ids₂ : List BodyID) (t₁ t₂ : List Answer),
      w₁.trace = w₂.trace → ids₁ = ids₂ →
      answers (addBodies E₁ l (w₁, ids₁)).1.trace ++ t₁ =
        answers (addBodies E₂ l (w₂, ids₂)).1.trace ++ t₂ →
      (addBodies E₁ l (w₁, ids₁)).1.trace = (addBodies E₂ l (w₂, ids₂)).1.trace ∧
      (addBodies E₁ l (w₁, ids₁)).2 = (addBodies E₂ l (w₂, ids₂)).2 ∧ t₁ = t₂ := by
  induction l with
  | nil =>
    intro w₁ w₂ ids₁ ids₂ t₁ t₂ hw hi h
    simp only [addBodies] at h ⊢
    rw [hw] at h
    exact ⟨hw, hi, List.append_cancel_left h⟩
  | cons m rest ih =>
    intro w₁ w₂ ids₁ ids₂ t₁ t₂ hw hi h
    simp only [addBodies] at h ⊢
    have h' := h
    obtain ⟨x₁, hx₁⟩ := addBodies_ext E₁ rest
      ⟨(E₁.CreateAndAddBody (E₁.CreateMeshShape m w₁.eng).1 ⟨lit_0_0f, lit_0_0f, lit_0_0f⟩
          ObjectLayerImpl.kStatic (E₁.CreateMeshShape m w₁.eng).2).2,
        w₁.trace ++ [Event.CreateMeshShape m (E₁.CreateMeshShape m w₁.eng).1] ++
          [Event.CreateAndAddBody (E₁.CreateMeshShape m w₁.eng).1 ⟨lit_0_0f, lit_0_0f, lit_0_0f⟩
            ObjectLayerImpl.kStatic
            (E₁.CreateAndAddBody (E₁.CreateMeshShape m w₁.eng).1 ⟨lit_0_0f, lit_0_0f, lit_0_0f⟩
              ObjectLayerImpl.kStatic (E₁.CreateMeshShape m w₁.eng).2).1]⟩
      (ids₁ ++ [(E₁.CreateAndAddBody (E₁.CreateMeshShape m w₁.eng).1
        ⟨lit_0_0f, lit_0_0f, lit_0_0f⟩ ObjectLayerImpl.kStatic (E₁.CreateMeshShape m w₁.eng).2).1])
    obtain ⟨x₂, hx₂⟩ := addBodies_ext E₂ rest
      ⟨(E₂.CreateAndAddBody (E₂.CreateMeshShape m w₂.eng).1 ⟨lit_0_0f, lit_0_0f, lit_0_0f⟩
          ObjectLayerImpl.kStatic (E₂.CreateMeshShape m w₂.eng).2).2,
        w₂.trace ++ [Event.CreateMeshShape m (E₂.CreateMeshShape m w₂.eng).1] ++
          [Event.CreateAndAddBody (E₂.CreateMeshShape m w₂.eng).1 ⟨lit_0_0f, lit_0_0f, lit_0_0f⟩
            ObjectLayerImpl.kStatic
            (E₂.CreateAndAddBody (E₂.CreateMeshShape m w₂.eng).1 ⟨lit_0_0f, lit_0_0f, lit_0_0f⟩
              ObjectLayerImpl.kStatic (E₂.CreateMeshShape m w₂.eng).2).1]⟩
      (ids₂ ++ [(E₂.CreateAndAddBody (E₂.CreateMeshShape m w₂.eng).1
        ⟨lit_0_0f, lit_0_0f, lit_0_0f⟩ ObjectLayerImpl.kStatic (E₂.CreateMeshShape m w₂.eng).2).1])
    rw [hx₁, hx₂, hw] at h'
    simp only [answers_append, List.append_assoc] at h'
    have h'' := List.append_cancel_left h'
    simp only [answers, List.filterMap_cons, List.filterMap_nil, Event.answer,
      List.cons_append, List.nil_append, List.cons.injEq, Answer.shape.injEq,
      Answer.body.injEq] at h''
    obtain ⟨hr, hb, _⟩ := h''
    refine ih _ _ _ _ t₁ t₂ ?_ ?_ h
    · show _ ++ _ ++ [Event.CreateAndAddBody _ _ _ _] = _
      rw [hb, hr, hw]
    · show _ ++ [_] = _
      rw [hb, hi]

/-- Two set-ups whose answers agree make the same events and collect the same
body ids. -/
theorem setup_determined (E₁ : Engine σ₁) (E₂ : Engine σ₂) (s₁ : σ₁) (s₂ : σ₂)
    (t₁ t₂ : List Answer)
    (h : answers (setup E₁ s₁).1.trace ++ t₁ = answers (setup E₂ s₂).1.trace ++ t₂) :
    (setup E₁ s₁).1.trace = (setup E₂ s₂).1.trace ∧ (setup E₁ s₁).2 = (setup E₂ s₂).2 ∧
      t₁ = t₂ := by
  have hpre : (createPhysicsSystem E₁ s₁).trace = (createPhysicsSystem E₂ s₂).trace := rfl
  simp only [setup, setupController, World.exec, answers_append, List.append_assoc] at h ⊢
  obtain ⟨h1, h2, h3⟩ := addBodies_determined E₁ E₂ test_vec_mesh_shape_settings
    (createPhysicsSystem E₁ s₁) (createPhysicsSystem E₂ s₂) [] [] _ _ hpre rfl h
  simp only [answers, List.filterMap_cons, List.filterMap_nil, Event.answer,
      List.cons_append, List.nil_append, List.cons.injEq, Answer.settings.injEq] at h3
  obtain ⟨h4, h5⟩ := h3
  refine ⟨?_, h2, h5⟩
  rw [h1, h4]

theorem answers_cons_position (p : Vec3) (l : List Event) :
    answers (Event.GetPosition p :: l) = Answer.position p :: answers l := by
  simp [answers, Event.answer]

/-- C10, amended. The harness is deterministic: for any two runs, on engines
of any kind, in which the engine returns the same values to the harness (the
positions, velocities and ground states, and also the gravity vectors, the
shape and settings references and the body ids), the harness makes the same
engine calls with the same arguments and the same print statements in the same
order, so that the sequence of calls and the output are the same. -/
theorem main_deterministic (E₁ : Engine σ₁) (E₂ : Engine σ₂) (s₁ : σ₁) (s₂ : σ₂)
    (h : answers (main E₁ s₁).trace = answers (main E₂ s₂).trace) :
    (main E₁ s₁).trace = (main E₂ s₂).trace ∧
    calls (main E₁ s₁).trace = calls (main E₂ s₂).trace ∧
    output (main E₁ s₁).trace = output (main E₂ s₂).trace := by
  have key : (main E₁ s₁).trace = (main E₂ s₂).trace := by
    rw [main_trace, main_trace] at h ⊢
    simp only [answers_append, List.append_assoc] at h
    obtain ⟨hS, hids, hrest⟩ := setup_determined E₁ E₂ s₁ s₂ _ _ h
    simp only [answers_cons_position, List.cons_append, List.cons.injEq,
      Answer.position.injEq, answers_append, List.append_assoc, stateAt] at hrest
    obtain ⟨hp, hloop⟩ := hrest
    simp only [stateAt] at hloop ⊢
    obtain ⟨hL, hmax, _⟩ := loop_determined E₁ E₂ kMaxNumSteps
      (loopEntry E₁ (setup E₁ s₁).1) (loopEntry E₂ (setup E₂ s₂).1) _ _ hp rfl hloop
    rw [hS, hids, hp, hL, hmax]
  exact ⟨key, by rw [key], by rw [key]⟩

set_option maxRecDepth 1000000 in
set_option exponentiation.threshold 2000 in
set_option maxHeartbeats 4000000 in
/-- C10, amended, at a concrete input: two small engines that differ (one moves
the character in its 100th update, after the last read of the position, the
other never does) and return the same values during the run. -/
theorem main_deterministic_witness :
    answers (main (toyEngine 100 0) toyStart).trace =
      answers (main (toyEngine 200 0) toyStart).trace ∧
    (main (toyEngine 100 0) toyStart).trace = (main (toyEngine 200 0) toyStart).trace ∧
    calls (main (toyEngine 100 0) toyStart).trace =
      calls (main (toyEngine 200 0) toyStart).trace ∧
    output (main (toyEngine 100 0) toyStart).trace =
      output (main (toyEngine 200 0) toyStart).trace :=
  have h : answers (main (toyEngine 100 0) toyStart).trace =
      answers (main (toyEngine 200 0) toyStart).trace := by
    rw [main_trace, main_trace]
    decide!
  ⟨h, main_deterministic (toyEngine 100 0) (toyEngine 200 0) toyStart toyStart h⟩

set_option maxRecDepth 1000000 in
set_option exponentiation.threshold 2000 in
set_option maxHeartbeats 4000000 in
/-- C10, as stated, fails. Two small engines that differ only in the body ids
they hand out (from 0 and from 1) return the same positions, velocities and
ground states to the same calls, yet the harness does not make the same calls:
the ids go into `RemoveBody` and `DestroyBody`, and the third call from the end
is `DestroyBody(2)` in one run and `DestroyBody(3)` in the other. -/
theorem same_kinematics_different_calls_counterexample :
    (answers (main (toyEngine 100 0) toyStart).trace).filter Answer.isKinematic =
      (answers (main (toyEngine 100 1) toyStart).trace).filter Answer.isKinematic ∧
    (calls (main (toyEngine 100 0) toyStart).trace).reverse[2]? =
      some (Call.cmd (Cmd.DestroyBody 2)) ∧
    (calls (main (toyEngine 100 1) toyStart).trace).reverse[2]? =
      some (Call.cmd (Cmd.DestroyBody 3)) ∧
    calls (main (toyEngine 100 0) toyStart).trace ≠
      calls (main (toyEngine 100 1) toyStart).trace := by
  have h1 : (calls (main (toyEngine 100 0) toyStart).trace).reverse[2]? =
      some (Call.cmd (Cmd.DestroyBody 2)) := by
    rw [main_trace]
    decide!
  have h2 : (calls (main (toyEngine 100 1) toyStart).trace).reverse[2]? =
      some (Call.cmd (Cmd.DestroyBody 3)) := by
    rw [main_trace]
    decide!
  refine ⟨?_, h1, h2, ?_⟩
  · rw [main_trace, main_trace]
    decide!
  · intro h
    rw [h, h2] at h1
    exact absurd h1 (by decide)

end DeterminismTheorems

/-! ## Settings and layers handed to the engine -/

section SettingsTheorems
variable {σ : Type}

theorem extendedUpdateSettings_driveEvents (E : Engine σ) (eng : σ) (dt : F32) :
    ∀ e ∈ driveEvents E eng dt, e.extendedUpdateSettings = none ∧ e.layers = [] := by
  rw [driveEvents_eq]
  by_cases hg : E.GetGroundState eng = EGroundState.OnGround <;>
    simp [hg, Event.extendedUpdateSettings, Event.layers]

theorem extendedUpdateSettings_iterEvents (E : Engine σ) (st : LoopState σ) :
    ∀ e ∈ iterEvents E st,
      (∀ x, e.extendedUpdateSettings = some x → x = test_extended_update_settings) ∧
      (∀ l ∈ e.layers, l = ObjectLayerImpl.kDynamic) := by
  intro e he
  rw [iterEvents_eq] at he
  simp only [List.mem_append, List.mem_cons, List.mem_singleton, List.not_mem_nil,
    or_false] at he
  rcases he with ((rfl | rfl) | he) | rfl | rfl | rfl
  · simp [Event.extendedUpdateSettings, Event.layers]
  · simp [Event.extendedUpdateSettings, Event.layers]
  · obtain ⟨h1, h2⟩ := extendedUpdateSettings_driveEvents E _ _ e he
    simp [h1, h2]
  · simp [Event.extendedUpdateSettings, Event.layers]
  · simp [Event.extendedUpdateSettings, Event.layers]
  · simp [Event.extendedUpdateSettings, Event.layers]

theorem layers_of_not_inSimulation (e : Event) (h : e.inSimulation = false) :
    e.extendedUpdateSettings = none := by
  cases e with
  | cmd c => cases c <;> simp_all [Event.inSimulation, Event.extendedUpdateSettings]
  | _ => simp [Event.extendedUpdateSettings]

theorem mem_main_trace (E : Engine σ) (s : σ) (e : Event) (he : e ∈ (main E s).trace) :
    e ∈ (setup E s).1.trace ∨ e = Event.GetPosition (E.GetPosition (setup E s).1.eng) ∨
    (∃ i, i < kMaxNumSteps ∧ e ∈ iterEvents E (stateAt E (setup E s).1 i)) ∨
    e = Event.Print (summaryLine (stateAt E (setup E s).1 kMaxNumSteps).max_length_delta) ∨
    e ∈ (setup E s).2.flatMap (fun id =>
            [Event.cmd (Cmd.RemoveBody id), Event.cmd (Cmd.DestroyBody id)]) ++
         [Event.cmd Cmd.UnregisterTypes, Event.cmd Cmd.DeleteFactory] := by
  rw [main_trace] at he
  simp only [List.mem_append, List.mem_cons, List.mem_singleton, List.mem_flatMap,
    List.mem_range, List.not_mem_nil, or_false] at he ⊢
  rcases he with (h | h | h | h) | h
  · exact Or.inl h
  · exact Or.inr (Or.inl h)
  · exact Or.inr (Or.inr (Or.inl h))
  · exact Or.inr (Or.inr (Or.inr (Or.inl h)))
  · exact Or.inr (Or.inr (Or.inr (Or.inr h)))

theorem layers_setup (E : Engine σ) (s : σ) :
    ∀ e ∈ (setup E s).1.trace, ∀ l ∈ e.layers, l = ObjectLayerImpl.kStatic := by
  simp [setup, createPhysicsSystem, setupController, addBodies, test_vec_mesh_shape_settings,
    World.exec, Event.layers, or_imp, forall_and]

theorem layers_teardown (ids : List BodyID) :
    ∀ e ∈ ids.flatMap (fun id => [Event.cmd (Cmd.RemoveBody id), Event.cmd (Cmd.DestroyBody id)]) ++
        [Event.cmd Cmd.UnregisterTypes, Event.cmd Cmd.DeleteFactory],
      e.layers = [] := by
  intro e he
  simp only [List.mem_append, List.mem_flatMap, List.mem_cons, List.mem_singleton,
    List.not_mem_nil, or_false] at he
  rcases he with ⟨id, _, rfl | rfl⟩ | rfl | rfl <;> rfl

/-- C11. `test_extended_update_settings` disables stair-stepping and
floor-snapping: `mStickToFloorStepDown`, `mWalkStairsStepUp` and
`mWalkStairsStepDownExtra` are each the vector of three `0.0f` (bit pattern 0,
value 0); and every `ExtendedUpdate` call of `main`, of which there are 100,
one per iteration, is handed these settings. -/
theorem test_extended_update_settings_zero (E : Engine σ) (s : σ) :
    test_extended_update_settings.mStickToFloorStepDown = ⟨⟨0⟩, ⟨0⟩, ⟨0⟩⟩ ∧
    test_extended_update_settings.mWalkStairsStepUp = ⟨⟨0⟩, ⟨0⟩, ⟨0⟩⟩ ∧
    test_extended_update_settings.mWalkStairsStepDownExtra = ⟨⟨0⟩, ⟨0⟩, ⟨0⟩⟩ ∧
    (⟨0⟩ : F32).toRat = 0 ∧
    (∀ e ∈ (main E s).trace, ∀ x, e.extendedUpdateSettings = some x →
      x = test_extended_update_settings) ∧
    (main E s).trace.countP Event.isExtendedUpdate = 100 := by
  refine ⟨rfl, rfl, rfl, ?_, ?_, ?_⟩
  · have h : (⟨0⟩ : F32).key = 0 := by decide
    simp [F32.toRat, h]
  · intro e he x hx
    rcases mem_main_trace E s e he with h | rfl | ⟨i, _, h⟩ | rfl | h
    · rw [layers_of_not_inSimulation e (setup_trace E s e h)] at hx
      exact absurd hx (by simp)
    · simp [Event.extendedUpdateSettings] at hx
    · exact (extendedUpdateSettings_iterEvents E _ e h).1 x hx
    · simp [Event.extendedUpdateSettings] at hx
    · rw [layers_of_not_inSimulation e (teardown_trace _ e h)] at hx
      exact absurd hx (by simp)
  · exact countP_main _ E s
      (by
        intro e he
        cases e with
        | cmd c => cases c <;> simp_all [Event.isExtendedUpdate, Event.inSimulation]
        | _ => simp_all [Event.isExtendedUpdate])
      (fun _ => rfl) (fun _ => rfl) (countP_iterEvents_isExtendedUpdate E)

end SettingsTheorems

/-- C16. `ObjectLayerPairFilterImpl::ShouldCollide` is symmetric on the defined
layers: for `a`, `b` among static and dynamic, `ShouldCollide(a, b)` and
`ShouldCollide(b, a)` answer the same; over all layer values it is not: for the
undefined layer 2, `ShouldCollide(dynamic, 2)` is true and
`ShouldCollide(2, dynamic)` is false. -/
theorem ObjectLayerPairFilterImpl_ShouldCollide_symmetric :
    (∀ a b : ObjectLayer,
      (a = ObjectLayerImpl.kStatic ∨ a = ObjectLayerImpl.kDynamic) →
      (b = ObjectLayerImpl.kStatic ∨ b = ObjectLayerImpl.kDynamic) →
      (ObjectLayerPairFilterImpl.ShouldCollide a b).value =
        (ObjectLayerPairFilterImpl.ShouldCollide b a).value) ∧
    (∃ u : ObjectLayer, u ≠ ObjectLayerImpl.kStatic ∧ u ≠ ObjectLayerImpl.kDynamic ∧
      (ObjectLayerPairFilterImpl.ShouldCollide ObjectLayerImpl.kDynamic u).value = true ∧
      (ObjectLayerPairFilterImpl.ShouldCollide u ObjectLayerImpl.kDynamic).value = false) := by
  refine ⟨?_, 2, by decide, by decide, rfl, rfl⟩
  intro a b ha hb
  rcases ha with rfl | rfl <;> rcases hb with rfl | rfl <;> rfl

section AssertTheorems
variable {σ : Type}

theorem inSimulation_iterEvents (E : Engine σ) (st : LoopState σ) :
    ∀ e ∈ iterEvents E st, e.inSimulation = true := by
  rw [iterEvents_eq, driveEvents_eq]
  by_cases hg : E.GetGroundState st.w.eng = EGroundState.OnGround <;>
    simp [hg, Event.inSimulation]

theorem main_layers (E : Engine σ) (s : σ) :
    ∀ e ∈ (main E s).trace, ∀ l ∈ e.layers,
      (e.inSimulation = false ∧ l = ObjectLayerImpl.kStatic) ∨
      (e.inSimulation = true ∧ l = ObjectLayerImpl.kDynamic) := by
  intro e he l hl
  rcases mem_main_trace E s e he with h | rfl | ⟨i, _, h⟩ | rfl | h
  · exact Or.inl ⟨setup_trace E s e h, layers_setup E s e h l hl⟩
  · simp [Event.layers] at hl
  · exact Or.inr ⟨inSimulation_iterEvents E _ e h,
      (extendedUpdateSettings_iterEvents E _ e h).2 l hl⟩
  · simp [Event.layers] at hl
  · rw [layers_teardown _ e h] at hl
    simp at hl

/-- C17. In `ObjectLayerPairFilterImpl::ShouldCollide`,
`ObjectVsBroadPhaseLayerFilterImpl::ShouldCollide` and
`BroadPhaseLayerInterfaceImpl::GetBroadPhaseLayer` the asserting default branch
is reached if and only if the object-layer argument is neither static nor
dynamic; when it is reached the filters answer false and the mapping answers
the static broad-phase layer; and the object layers `main` hands to the engine
are the static layer for every body it creates and the dynamic layer for both
filters of every `ExtendedUpdate`, for which the branch is not reached. -/
theorem assert_branch_reached_iff_undefined_layer (E : Engine σ) (s : σ) :
    (∀ l l₂ : ObjectLayer,
      ((ObjectLayerPairFilterImpl.ShouldCollide l l₂).assertFailed = true ↔
        (l ≠ ObjectLayerImpl.kStatic ∧ l ≠ ObjectLayerImpl.kDynamic)) ∧
      ((ObjectLayerPairFilterImpl.ShouldCollide l l₂).assertFailed = true →
        (ObjectLayerPairFilterImpl.ShouldCollide l l₂).value = false)) ∧
    (∀ (l : ObjectLayer) (bp : BroadPhaseLayer),
      ((ObjectVsBroadPhaseLayerFilterImpl.ShouldCollide l bp).assertFailed = true ↔
        (l ≠ ObjectLayerImpl.kStatic ∧ l ≠ ObjectLayerImpl.kDynamic)) ∧
      ((ObjectVsBroadPhaseLayerFilterImpl.ShouldCollide l bp).assertFailed = true →
        (ObjectVsBroadPhaseLayerFilterImpl.ShouldCollide l bp).value = false)) ∧
    (∀ l : ObjectLayer,
      ((BroadPhaseLayerInterfaceImpl.GetBroadPhaseLayer l).assertFailed = true ↔
        (l ≠ ObjectLayerImpl.kStatic ∧ l ≠ ObjectLayerImpl.kDynamic)) ∧
      ((BroadPhaseLayerInterfaceImpl.GetBroadPhaseLayer l).assertFailed = true →
        (BroadPhaseLayerInterfaceImpl.GetBroadPhaseLayer l).value =
          BroadPhaseLayerImpl.kStatic)) ∧
    (∀ e ∈ (main E s).trace, ∀ shape position layer ret,
      e = Event.CreateAndAddBody shape position layer ret →
        layer = ObjectLayerImpl.kStatic) ∧
    (∀ e ∈ (main E s).trace, ∀ dt gravity settings l₁ l₂,
      e = Event.cmd (Cmd.ExtendedUpdate dt gravity settings l₁ l₂) →
        l₁ = ObjectLayerImpl.kDynamic ∧ l₂ = ObjectLayerImpl.kDynamic) ∧
    (∀ e ∈ (main E s).trace, ∀ l ∈ e.layers, ∀ (l₂ : ObjectLayer) (bp : BroadPhaseLayer),
      (ObjectLayerPairFilterImpl.ShouldCollide l l₂).assertFailed = false ∧
      (ObjectVsBroadPhaseLayerFilterImpl.ShouldCollide l bp).assertFailed = false ∧
      (BroadPhaseLayerInterfaceImpl.GetBroadPhaseLayer l).assertFailed = false) := by
  refine ⟨?_, ?_, ?_, ?_, ?_, ?_⟩
  · intro l l₂
    rcases l with _ | _ | n <;>
      simp [ObjectLayerPairFilterImpl.ShouldCollide, ObjectLayerImpl.kStatic,
        ObjectLayerImpl.kDynamic]
  · intro l bp
    rcases l with _ | _ | n <;>
      simp [ObjectVsBroadPhaseLayerFilterImpl.ShouldCollide, ObjectLayerImpl.kStatic,
        ObjectLayerImpl.kDynamic]
  · intro l
    rcases l with _ | _ | n <;>
      simp [BroadPhaseLayerInterfaceImpl.GetBroadPhaseLayer, ObjectLayerImpl.kStatic,
        ObjectLayerImpl.kDynamic]
  · intro e he shape position layer ret h
    subst h
    rcases main_layers E s _ he layer (by simp [Event.layers]) with ⟨_, h⟩ | ⟨h, _⟩
    · exact h
    · simp [Event.inSimulation] at h
  · intro e he dt gravity settings l₁ l₂ h
    subst h
    constructor
    · rcases main_layers E s _ he l₁ (by simp [Event.layers]) with ⟨h, _⟩ | ⟨_, h⟩
      · simp [Event.inSimulation] at h
      · exact h
    · rcases main_layers E s _ he l₂ (by simp [Event.layers]) with ⟨h, _⟩ | ⟨_, h⟩
      · simp [Event.inSimulation] at h
      · exact h
  · intro e he l hl l₂ bp
    rcases main_layers E s e he l hl with ⟨_, rfl⟩ | ⟨_, rfl⟩ <;>
      exact ⟨rfl, rfl, rfl⟩

end AssertTheorems

/-! ## The values of the fixed inputs -/

set_option maxRecDepth 100000 in
theorem key_test_delta_time : test_delta_time.key = 8916921 * 2 ^ 120 := by decide

set_option maxRecDepth 100000 in
theorem key_velocity_x : test_linear_velocity_xy.x.key = -(10827844 * 2 ^ 128) := by decide

set_option maxRecDepth 100000 in
theorem key_velocity_y : test_linear_velocity_xy.y.key = 12819898 * 2 ^ 127 := by decide

theorem key_velocity_z : test_linear_velocity_xy.z.key = 0 := by decide

/-- C15. With a bit pattern read as the binary32 value it stands for, the fixed
inputs have their documented values: `test_delta_time()` is
`cast(0x3c880fb9)`, a finite positive value within 0.0001 of 1/60;
`test_linear_velocity_xy()` is `(cast(0xc0a53844), cast(0x40439dba), 0.0f)`,
with finite negative X within half a unit of the sixth significant digit of
-5.16312, finite positive Y within half a unit of the sixth significant digit
of 3.05650, and Z equal to 0. -/
theorem fixed_inputs_have_documented_values :
    test_delta_time = cast 0x3c880fb9 ∧
    test_delta_time.isFinite = true ∧
    0 < test_delta_time.toRat ∧
    |test_delta_time.toRat - 1 / 60| < 1 / 10000 ∧
    test_linear_velocity_xy = ⟨cast 0xc0a53844, cast 0x40439dba, ⟨0⟩⟩ ∧
    test_linear_velocity_xy.x.isFinite = true ∧
    test_linear_velocity_xy.y.isFinite = true ∧
    test_linear_velocity_xy.x.toRat < 0 ∧
    0 < test_linear_velocity_xy.y.toRat ∧
    |test_linear_velocity_xy.x.toRat - (-516312 / 100000)| < 5 / 1000000 ∧
    |test_linear_velocity_xy.y.toRat - 305650 / 100000| < 5 / 1000000 ∧
    test_linear_velocity_xy.z.toRat = 0 := by
  refine ⟨rfl, by decide, ?_, ?_, rfl, by decide, by decide, ?_, ?_, ?_, ?_, ?_⟩
  · rw [F32.toRat, key_test_delta_time]; norm_num
  · rw [F32.toRat, key_test_delta_time, abs_lt]; norm_num
  · rw [F32.toRat, key_velocity_x]; norm_num
  · rw [F32.toRat, key_velocity_y]; norm_num
  · rw [F32.toRat, key_velocity_x, abs_lt]; norm_num
  · rw [F32.toRat, key_velocity_y, abs_lt]; norm_num
  · rw [F32.toRat, key_velocity_z]; norm_num

/-! ## The displacement of each step -/

namespace F32

theorem sign_neg (x : F32) : (neg x).sign = !x.sign := by
  unfold neg sign
  by_cases h : x.bits / 2 ^ 31 % 2 = 1
  · simp only [h, decide_True, if_true, Bool.not_true, decide_eq_false_iff_not]
    norm_num at h ⊢
    omega
  · simp only [h, decide_False, if_false, Bool.not_false, decide_eq_true_eq,
      Bool.false_eq_true]
    norm_num at h ⊢
    omega

theorem expo_neg (x : F32) : (neg x).expo = x.expo := by
  unfold neg expo sign
  by_cases h : x.bits / 2 ^ 31 % 2 = 1
  · simp only [h, decide_True, if_true]
    norm_num at h ⊢
    omega
  · simp only [h, decide_False, if_false, Bool.false_eq_true]
    norm_num at h ⊢
    omega

theorem frac_neg (x : F32) : (neg x).frac = x.frac := by
  unfold neg frac sign
  by_cases h : x.bits / 2 ^ 31 % 2 = 1
  · simp only [h, decide_True, if_true]
    norm_num at h ⊢
    omega
  · simp only [h, decide_False, if_false, Bool.false_eq_true]
    norm_num at h ⊢
    omega

theorem mag_neg (x : F32) : (neg x).mag = x.mag := by
  unfold mag
  rw [expo_neg, frac_neg]

theorem isNaN_neg (x : F32) : (neg x).isNaN = x.isNaN := by
  unfold isNaN
  rw [expo_neg, frac_neg]

theorem isInf_neg (x : F32) : (neg x).isInf = x.isInf := by
  unfold isInf
  rw [expo_neg, frac_neg]

theorem key_neg (x : F32) : (neg x).key = -x.key := by
  unfold key
  rw [sign_neg, mag_neg]
  cases x.sign <;> simp

/-- Subtracting a value from itself gives `+0`, or a NaN when the value is
not finite. -/
theorem sub_self (x : F32) : sub x x = if x.isFinite then ⟨0⟩ else nan := by
  unfold sub add
  rw [isNaN_neg, isInf_neg, sign_neg, key_neg]
  by_cases hn : x.isNaN = true
  · have hf : x.isFinite = false := by
      simp only [isNaN, isFinite, Bool.and_eq_true, decide_eq_true_eq] at hn ⊢
      simp [hn.1]
    simp [hn, hf]
  · by_cases hi : x.isInf = true
    · have hf : x.isFinite = false := by
        simp only [isInf, isFinite, Bool.and_eq_true, decide_eq_true_eq] at hi ⊢
        simp [hi.1]
      cases hs : x.sign <;> simp [hn, hi, hf, hs]
    · have hf : x.isFinite = true := by
        simp only [isNaN, isInf, isFinite, Bool.and_eq_true, decide_eq_true_eq, not_and,
          Bool.not_eq_true] at hn hi ⊢
        by_contra hc
        have h255 : x.expo = 255 := by
          have : x.expo < 256 := by unfold expo; omega
          omega
        have h1 := hn h255
        have h2 := hi h255
        simp at h1 h2
        exact h2 h1
      cases hs : x.sign <;> simp [hn, hi, hf, hs, zero, signBit]

end F32

theorem Vec3.sub_self_of_finite (p : Vec3) (hx : p.x.isFinite = true)
    (hy : p.y.isFinite = true) (hz : p.z.isFinite = true) :
    p.sub p = ⟨⟨0⟩, ⟨0⟩, ⟨0⟩⟩ := by
  simp [Vec3.sub, F32.sub_self, hx, hy, hz]

set_option maxRecDepth 100000 in
/-- The length of a vector minus itself is never above the threshold. -/
theorem Vec3.Length_sub_self_not_gt (p : Vec3) :
    ((p.sub p).Length).gt lit_0_3f = false := by
  simp only [Vec3.sub, F32.sub_self]
  cases p.x.isFinite <;> cases p.y.isFinite <;> cases p.z.isFinite <;> decide

section DisplacementTheorems
variable {σ σ' : Type}

/-- The `i`-th line `main` prints, for `i` below the number of steps. -/
theorem printed_main_getElem (E : Engine σ) (s : σ) (i : Nat) (hi : i < kMaxNumSteps) :
    (printed (main E s).trace)[i]? =
      some (stepLine (stepMarker (lengthDeltaAt E (setup E s).1 i))
        (positionAt E (setup E s).1 i) (deltaAt E (setup E s).1 i)) := by
  rw [printed_main, List.getElem?_append_left (by simpa using hi)]
  simp [List.getElem?_map, List.getElem?_range hi]

theorem deltaAt_zero (E : Engine σ) (w : World σ) :
    deltaAt E w 0 = (positionAt E w 0).sub (positionAt E w 0) := rfl

theorem deltaAt_succ (E : Engine σ) (w : World σ) (k : Nat) :
    deltaAt E w (k + 1) = (positionAt E w (k + 1)).sub (positionAt E w k) := by
  simp only [deltaAt, positionAt, stateAt_succ, loopBody_p_last]

/-- The displacements of the first `n` steps are determined by the positions
read in them. -/
theorem deltaAt_congr (E : Engine σ) (E' : Engine σ') (w : World σ) (w' : World σ') (n : Nat)
    (h : ∀ i, i < n → positionAt E' w' i = positionAt E w i) :
    ∀ i, i < n → deltaAt E' w' i = deltaAt E w i := by
  intro i hi
  cases i with
  | zero => rw [deltaAt_zero, deltaAt_zero, h 0 hi]
  | succ k => rw [deltaAt_succ, deltaAt_succ, h (k + 1) hi, h k (Nat.lt_of_succ_lt hi)]

/-- The maximum after `n` steps is determined by the positions read in them. -/
theorem max_congr (E : Engine σ) (E' : Engine σ') (w : World σ) (w' : World σ') (n : Nat)
    (h : ∀ i, i < n → positionAt E' w' i = positionAt E w i) :
    (stateAt E' w' n).max_length_delta = (stateAt E w n).max_length_delta := by
  induction n with
  | zero => rfl
  | succ k ih =>
    have hk := ih (fun i hi => h i (Nat.lt_succ_of_lt hi))
    have hd := deltaAt_congr E E' w w' (k + 1) h k (Nat.lt_succ_self k)
    have e1 : (stateAt E' w' (k + 1)).max_length_delta =
        if (deltaAt E' w' k).Length.gt (stateAt E' w' k).max_length_delta
        then (deltaAt E' w' k).Length else (stateAt E' w' k).max_length_delta := by
      rw [stateAt_succ, loopBody_max]; rfl
    have e2 : (stateAt E w (k + 1)).max_length_delta =
        if (deltaAt E w k).Length.gt (stateAt E w k).max_length_delta
        then (deltaAt E w k).Length else (stateAt E w k).max_length_delta := by
      rw [stateAt_succ, loopBody_max]; rfl
    rw [e1, e2, hk, hd]

/-- C13. Let the engine report the character at a position with finite
coordinates before the first update, as it does for the finite position
`test_character_position_initial` at which `main` has just constructed it.
Write `p_0` for that position and `p_i` for the position after the updates of
`i` iterations; these are the positions in the trace of `main`, after the read
before the loop, which also returns `p_0`. Then the displacement printed and
tracked in iteration `k` is `p_k - p_(k-1)` for `1 <= k <= 99` and the zero
vector for `k = 0`; the first line shows zero displacement with a blank
marker; and what `main` prints, the reported maximum included, is determined
by `p_0, ..., p_99`, so the movement of the 100th update, `p_100 - p_99`, is
neither printed nor included in the maximum. -/
theorem displacement_of_previous_step (E : Engine σ) (s : σ)
    (hx : (E.GetPosition (setup E s).1.eng).x.isFinite = true)
    (hy : (E.GetPosition (setup E s).1.eng).y.isFinite = true)
    (hz : (E.GetPosition (setup E s).1.eng).z.isFinite = true) :
    (∃ r, (setup E s).1.trace.getLast? =
      some (Event.cmd (Cmd.NewCharacterVirtual r test_character_position_initial))) ∧
    (test_character_position_initial.x.isFinite = true ∧
      test_character_position_initial.y.isFinite = true ∧
      test_character_position_initial.z.isFinite = true) ∧
    positionsRead (main E s).trace =
      E.GetPosition (setup E s).1.eng ::
        (List.range kMaxNumSteps).map (positionAt E (setup E s).1) ∧
    positionAt E (setup E s).1 0 = E.GetPosition (setup E s).1.eng ∧
    (∀ k, positionAt E (setup E s).1 (k + 1) =
      E.GetPosition
        (E.exec (Cmd.Update test_delta_time kCollisionSteps)
          (E.exec (Cmd.ExtendedUpdate test_delta_time
              (E.GetGravity (driveEng E (stateAt E (setup E s).1 k).w.eng test_delta_time))
              test_extended_update_settings ObjectLayerImpl.kDynamic ObjectLayerImpl.kDynamic)
            (driveEng E (stateAt E (setup E s).1 k).w.eng test_delta_time)))) ∧
    (∀ k, k < kMaxNumSteps → (printed (main E s).trace)[k]? =
      some (stepLine (stepMarker (deltaAt E (setup E s).1 k).Length)
        (positionAt E (setup E s).1 k) (deltaAt E (setup E s).1 k))) ∧
    deltaAt E (setup E s).1 0 = ⟨⟨0⟩, ⟨0⟩, ⟨0⟩⟩ ∧
    (∀ k, deltaAt E (setup E s).1 (k + 1) =
      (positionAt E (setup E s).1 (k + 1)).sub (positionAt E (setup E s).1 k)) ∧
    (printed (main E s).trace)[0]? =
      some (stepLine " " (positionAt E (setup E s).1 0) ⟨⟨0⟩, ⟨0⟩, ⟨0⟩⟩) ∧
    (stateAt E (setup E s).1 0).max_length_delta = lit_0_0f ∧
    (∀ k, (stateAt E (setup E s).1 (k + 1)).max_length_delta =
      if (deltaAt E (setup E s).1 k).Length.gt (stateAt E (setup E s).1 k).max_length_delta
      then (deltaAt E (setup E s).1 k).Length
      else (stateAt E (setup E s).1 k).max_length_delta) ∧
    (printed (main E s).trace).getLast? =
      some (summaryLine (stateAt E (setup E s).1 kMaxNumSteps).max_length_delta) ∧
    (∀ (τ : Type) (E' : Engine τ) (s' : τ),
      (∀ i, i < kMaxNumSteps →
        positionAt E' (setup E' s').1 i = positionAt E (setup E s).1 i) →
      printed (main E' s').trace = printed (main E s).trace) := by
  have hd0 : deltaAt E (setup E s).1 0 = ⟨⟨0⟩, ⟨0⟩, ⟨0⟩⟩ := by
    rw [deltaAt_zero]
    exact Vec3.sub_self_of_finite _ hx hy hz
  refine ⟨?_, by decide, positionsRead_main E s, rfl, ?_, ?_, hd0, deltaAt_succ E _, ?_, rfl,
    ?_, ?_, ?_⟩
  · exact ⟨(E.BuildCharacterSettings (E.exec Cmd.OptimizeBroadPhase
      (addBodies E test_vec_mesh_shape_settings (createPhysicsSystem E s, [])).1.eng)).1,
      by simp [setup, setupController, World.exec]⟩
  · intro k
    rw [positionAt, stateAt_succ, loopBody_eng]
  · intro k hk
    exact printed_main_getElem E s k hk
  · rw [printed_main_getElem E s 0 (by decide)]
    have h : stepMarker (lengthDeltaAt E (setup E s).1 0) = " " := by
      have := Vec3.Length_sub_self_not_gt (positionAt E (setup E s).1 0)
      simp only [stepMarker, lengthDeltaAt, deltaAt_zero, this]
      rfl
    rw [h, hd0]
  · intro k
    rw [stateAt_succ, loopBody_max]
    rfl
  · rw [printed_main, List.getLast?_append]
    simp
  · intro τ E' s' h
    rw [printed_main, printed_main, max_congr E E' _ _ kMaxNumSteps h]
    congr 1
    apply List.map_congr_left
    intro i hi
    have hi' : i < kMaxNumSteps := List.mem_range.mp hi
    simp only [lengthDeltaAt, deltaAt_congr E E' _ _ kMaxNumSteps h i hi', h i hi']

set_option maxRecDepth 1000000 in
set_option exponentiation.threshold 2000 in
/-- C13 at a concrete input: the engine that puts the character where `main`
constructs it and moves it by one unit in its 3rd and in its 100th update. The
first line shows the constructed position with zero displacement and a blank
marker; the line of iteration 3 shows the movement of the 3rd update and the
line of iteration 4 shows none; the 100th update moves the character, and the
reported maximum is the movement of the 3rd update. -/
theorem displacement_of_previous_step_witness :
    ((placedEngine [3, 100]).GetPosition
      (setup (placedEngine [3, 100]) placedStart).1.eng).x.isFinite = true ∧
    ((placedEngine [3, 100]).GetPosition
      (setup (placedEngine [3, 100]) placedStart).1.eng).y.isFinite = true ∧
    ((placedEngine [3, 100]).GetPosition
      (setup (placedEngine [3, 100]) placedStart).1.eng).z.isFinite = true ∧
    positionAt (placedEngine [3, 100]) (setup (placedEngine [3, 100]) placedStart).1 0 =
      test_character_position_initial ∧
    (printed (main (placedEngine [3, 100]) placedStart).trace)[0]? =
      some (stepLine " " test_character_position_initial ⟨⟨0⟩, ⟨0⟩, ⟨0⟩⟩) ∧
    (printed (main (placedEngine [3, 100]) placedStart).trace)[3]? =
      some (stepLine ">"
        ⟨F32.add test_character_position_initial.x lit_1_0f,
          test_character_position_initial.y, test_character_position_initial.z⟩
        ⟨F32.sub (F32.add test_character_position_initial.x lit_1_0f)
          test_character_position_initial.x, ⟨0⟩, ⟨0⟩⟩) ∧
    deltaAt (placedEngine [3, 100]) (setup (placedEngine [3, 100]) placedStart).1 4 =
      ⟨⟨0⟩, ⟨0⟩, ⟨0⟩⟩ ∧
    positionAt (placedEngine [3, 100]) (setup (placedEngine [3, 100]) placedStart).1 100 ≠
      positionAt (placedEngine [3, 100]) (setup (placedEngine [3, 100]) placedStart).1 99 ∧
    (printed (main (placedEngine [3, 100]) placedStart).trace).getLast? =
      some (summaryLine
        (Vec3.Length ⟨F32.sub (F32.add test_character_position_initial.x lit_1_0f)
          test_character_position_initial.x, ⟨0⟩, ⟨0⟩⟩)) :=
  have hp : positionAt (placedEngine [3, 100]) (setup (placedEngine [3, 100]) placedStart).1 0 =
      test_character_position_initial := by decide
  have hm : (stateAt (placedEngine [3, 100]) (setup (placedEngine [3, 100]) placedStart).1
      kMaxNumSteps).max_length_delta =
        Vec3.Length ⟨F32.sub (F32.add test_character_position_initial.x lit_1_0f)
          test_character_position_initial.x, ⟨0⟩, ⟨0⟩⟩ := by decide!
  have h3 : stepLine
      (stepMarker (deltaAt (placedEngine [3, 100])
        (setup (placedEngine [3, 100]) placedStart).1 3).Length)
      (positionAt (placedEngine [3, 100]) (setup (placedEngine [3, 100]) placedStart).1 3)
      (deltaAt (placedEngine [3, 100]) (setup (placedEngine [3, 100]) placedStart).1 3) =
    stepLine ">"
        ⟨F32.add test_character_position_initial.x lit_1_0f,
          test_character_position_initial.y, test_character_position_initial.z⟩
        ⟨F32.sub (F32.add test_character_position_initial.x lit_1_0f)
          test_character_position_initial.x, ⟨0⟩, ⟨0⟩⟩ := by decide!
  have T := displacement_of_previous_step (placedEngine [3, 100]) placedStart
    (by decide) (by decide) (by decide)
  ⟨by decide, by decide, by decide, hp,
   by rw [← hp]; exact T.2.2.2.2.2.2.2.2.1,
   by rw [← h3]; exact T.2.2.2.2.2.1 3 (by decide),
   by decide!,
   by decide!,
   by rw [← hm]; exact T.2.2.2.2.2.2.2.2.2.2.2.1⟩

end DisplacementTheorems

/-! ## The reported maximum and the flags -/

namespace F32

theorem gt_of_ge_of_gt {m l t : F32} (h1 : m.ge l = true) (h2 : l.gt t = true) :
    m.gt t = true := by
  simp only [gt, ge, Bool.and_eq_true, Bool.not_eq_true', decide_eq_true_eq] at *
  exact ⟨⟨h1.1.1, h2.1.2⟩, lt_of_lt_of_le h2.2 h1.2⟩

theorem le_iff_not_gt {m t : F32} (hm : m.isNaN = false) (ht : t.isNaN = false) :
    m.le t = true ↔ m.gt t = false := by
  simp only [le, ge, gt, hm, ht, Bool.not_false, Bool.true_and, decide_eq_true_eq,
    decide_eq_false_iff_not, not_lt]

end F32

section FlagTheorems
variable {σ : Type}

theorem head_stepLine_flag (l : F32) (p d : Vec3) :
    (stepLine (stepMarker l) p d).head? = some (Tok.str ">") ↔ l.gt lit_0_3f = true := by
  cases h : l.gt lit_0_3f <;> simp [stepLine, stepMarker, h]

theorem head_stepLine_blank (l : F32) (p d : Vec3) :
    (stepLine (stepMarker l) p d).head? = some (Tok.str " ") ↔ l.gt lit_0_3f = false := by
  cases h : l.gt lit_0_3f <;> simp [stepLine, stepMarker, h]

/-- C14. For every engine whose displacement magnitudes are not NaNs, the
value on the `max delta` line is greater than the threshold `0.3f` if and only
if at least one of the 100 step lines carries the marker `>`; equivalently
every step line carries the blank marker exactly when the reported maximum is
at most `0.3f`. -/
theorem max_above_threshold_iff_flagged (E : Engine σ) (s : σ)
    (h : ∀ i, i < kMaxNumSteps → (lengthDeltaAt E (setup E s).1 i).isNaN = false) :
    ∃ m, (printed (main E s).trace).getLast? = some (summaryLine m) ∧
      (m.gt lit_0_3f = true ↔
        ∃ i, i < kMaxNumSteps ∧ ∃ line, (printed (main E s).trace)[i]? = some line ∧
          line.head? = some (Tok.str ">")) ∧
      ((∀ i, i < kMaxNumSteps → ∃ line, (printed (main E s).trace)[i]? = some line ∧
          line.head? = some (Tok.str " ")) ↔
        m.le lit_0_3f = true) := by
  obtain ⟨h1, h2, h3⟩ := max_invariant E (setup E s).1 kMaxNumSteps h
  have hflag : (stateAt E (setup E s).1 kMaxNumSteps).max_length_delta.gt lit_0_3f = true ↔
      ∃ i, i < kMaxNumSteps ∧ (lengthDeltaAt E (setup E s).1 i).gt lit_0_3f = true := by
    constructor
    · intro hm
      rcases h3 with h0 | ⟨i, hi, h0⟩
      · rw [h0] at hm
        exact absurd hm (by decide)
      · exact ⟨i, hi, by rw [← h0]; exact hm⟩
    · rintro ⟨i, hi, hl⟩
      exact F32.gt_of_ge_of_gt (h2 i hi) hl
  refine ⟨(stateAt E (setup E s).1 kMaxNumSteps).max_length_delta, ?_, ?_, ?_⟩
  · rw [printed_main, List.getLast?_append]
    simp
  · rw [hflag]
    constructor
    · rintro ⟨i, hi, hl⟩
      exact ⟨i, hi, _, printed_main_getElem E s i hi, (head_stepLine_flag _ _ _).mpr hl⟩
    · rintro ⟨i, hi, line, hline, hhead⟩
      rw [printed_main_getElem E s i hi] at hline
      cases hline
      exact ⟨i, hi, (head_stepLine_flag _ _ _).mp hhead⟩
  · rw [F32.le_iff_not_gt h1 (by decide), ← Bool.not_eq_true, hflag]
    constructor
    · rintro hall ⟨i, hi, hl⟩
      obtain ⟨line, hline, hhead⟩ := hall i hi
      rw [printed_main_getElem E s i hi] at hline
      cases hline
      rw [(head_stepLine_blank _ _ _).mp hhead] at hl
      exact absurd hl (by decide)
    · intro hnone i hi
      refine ⟨_, printed_main_getElem E s i hi, (head_stepLine_blank _ _ _).mpr ?_⟩
      cases hl : (lengthDeltaAt E (setup E s).1 i).gt lit_0_3f
      · rfl
      · exact absurd ⟨i, hi, hl⟩ hnone

set_option maxRecDepth 1000000 in
set_option exponentiation.threshold 2000 in
/-- C14 at a concrete input: the small engine that moves the character by one
unit in its seventh update; the reported maximum is above the threshold. -/
theorem max_above_threshold_iff_flagged_witness :
    (∀ i, i < kMaxNumSteps →
      (lengthDeltaAt (toyEngine 7 0) (setup (toyEngine 7 0) toyStart).1 i).isNaN = false) ∧
    ∃ m, (printed (main (toyEngine 7 0) toyStart).trace).getLast? = some (summaryLine m) ∧
      (m.gt lit_0_3f = true ↔
        ∃ i, i < kMaxNumSteps ∧ ∃ line,
          (printed (main (toyEngine 7 0) toyStart).trace)[i]? = some line ∧
          line.head? = some (Tok.str ">")) ∧
      ((∀ i, i < kMaxNumSteps → ∃ line,
          (printed (main (toyEngine 7 0) toyStart).trace)[i]? = some line ∧
          line.head? = some (Tok.str " ")) ↔
        m.le lit_0_3f = true) :=
  have h : ∀ i, i < kMaxNumSteps →
      (lengthDeltaAt (toyEngine 7 0) (setup (toyEngine 7 0) toyStart).1 i).isNaN = false := by
    decide!
  ⟨h, max_above_threshold_iff_flagged (toyEngine 7 0) toyStart h⟩

end FlagTheorems

end Repro
